import Mathlib

/-!
Verification development for the Robo liga FRI 2019 robot controller
(`tmk/Main.py`): a shallow embedding of its geometry helpers, PID
regulator, target selector and the main control-loop tick, together with
theorems settling the specification claims.

Numbers are modelled by exact reals (`ℝ`): the source computes with
`math.sqrt` and `math.atan2`, which have no rational counterpart, and all
claims are about exact arithmetic relationships, not float rounding.
A Python exception that would crash the control loop (ZeroDivisionError,
TypeError/AttributeError on `None`) is modelled by `Except.error`.
-/

noncomputable section

/-- Error outcomes of a tick: a Python exception escaping the main loop.
`zeroDiv` models `ZeroDivisionError`; `noneType` models the
`TypeError`/`AttributeError` raised when `None` is subscripted or used as
a `Point`. -/
inductive PyErr where
  | zeroDiv
  | noneType
  deriving DecidableEq, Repr

/-- `Point` from `Main.py`: a position on the field (x, y in mm). -/
structure Point where
  x : ℝ
  y : ℝ
  deriving DecidableEq

-- Configuration constants of `Main.py` (lines 237-300).
def ROBOT_ID : ℤ := 35
def SPEED_MAX : ℝ := 800
def SPEED_BASE_MAX : ℝ := 700
def DIST_EPS : ℝ := 100
def DIR_EPS : ℝ := 5
def DIST_NEAR : ℝ := 100
def TIMER_NEAR_TARGET : ℝ := 3

/-- `math.atan2 y x`, case for case as the C/Python library function:
the angle of the vector `(x, y)` in radians, in `(-π, π]`. -/
def atan2 (y x : ℝ) : ℝ :=
  if 0 < x then Real.arctan (y / x)
  else if x < 0 then
    (if 0 ≤ y then Real.arctan (y / x) + Real.pi
     else Real.arctan (y / x) - Real.pi)
  else if 0 < y then Real.pi / 2
  else if y < 0 then -(Real.pi / 2)
  else 0

/-- `math.degrees`. -/
def degrees (x : ℝ) : ℝ := x * (180 / Real.pi)

/-- The normalisation step of `get_angle` (`Main.py` lines 309-316):
subtract the heading `a1` from the absolute bearing `a` (the source's
`a_rel = a - a1`, inlined) and apply a single ±360 correction when the
magnitude exceeds 180. -/
def get_angle_rel (a a1 : ℝ) : ℝ :=
  if |a - a1| > 180 then
    (if a - a1 > 0 then a - a1 - 360 else a - a1 + 360)
  else a - a1

/-- `get_angle` (`Main.py` lines 303-316): relative bearing from the robot
at `p1` with heading `a1` (degrees) to the target `p2`. -/
def get_angle (p1 : Point) (a1 : ℝ) (p2 : Point) : ℝ :=
  get_angle_rel (degrees (atan2 (p2.y - p1.y) (p2.x - p1.x))) a1

/-- `get_distance` (`Main.py` lines 319-323): Euclidean distance. -/
def get_distance (p1 p2 : Point) : ℝ :=
  Real.sqrt ((p2.x - p1.x) ^ 2 + (p2.y - p1.y) ^ 2)

/-- Python's `round`: round half to even (banker's rounding). -/
def pyRound (x : ℝ) : ℤ :=
  if x - (⌊x⌋ : ℝ) < 1 / 2 then ⌊x⌋
  else if 1 / 2 < x - (⌊x⌋ : ℝ) then ⌊x⌋ + 1
  else if ⌊x⌋ % 2 = 0 then ⌊x⌋ else ⌊x⌋ + 1

/-- The state of one `PID` object (`Main.py` lines 43-100).  The
constructor parameters `ki`, `kd`, `integral_limit` default to `None`;
the mutable fields `_error`, `_time`, `_integral`, `_value` are `None`
until the first `update`. -/
structure PIDState where
  setpoint : ℝ
  kp : ℝ
  ki : Option ℝ
  kd : Option ℝ
  integral_limit : Option ℝ
  error : Option ℝ
  time : Option ℝ
  integral : Option ℝ
  value : Option ℝ

/-- `PID.__init__` (`Main.py` lines 44-73). -/
def PID.new (setpoint kp : ℝ) (ki kd integral_limit : Option ℝ) : PIDState :=
  { setpoint := setpoint, kp := kp, ki := ki, kd := kd,
    integral_limit := integral_limit,
    error := none, time := none, integral := none, value := none }

/-- `PID.reset` (`Main.py` lines 75-100): optionally overwrite parameters,
then clear the error, time, integral and value memory. -/
def PID.reset (st : PIDState)
    (setpoint kp ki kd integral_limit : Option ℝ) : PIDState :=
  { setpoint := setpoint.getD st.setpoint,
    kp := kp.getD st.kp,
    ki := match ki with | some k => some k | none => st.ki,
    kd := match kd with | some k => some k | none => st.kd,
    integral_limit := match integral_limit with
      | some l => some l
      | none => st.integral_limit,
    error := none, time := none, integral := none, value := none }

/-- `PID.update` (`Main.py` lines 102-160).  The wall-clock reading
`time()` taken inside `update` is passed as the argument `now`.  On the
first call (no stored `_value`) only the proportional term is returned
and the memory is initialised.  On later calls the derivative term
divides by `delta_time` with no guard: `delta_time = 0` with `kd`
configured raises `ZeroDivisionError`, modelled as `.error .zeroDiv`. -/
def PID.update (st : PIDState) (measurement now : ℝ) :
    Except PyErr (ℝ × PIDState) :=
  match st.value with
  | none =>
      .ok (st.kp * (st.setpoint - measurement),
        { st with
          value := some measurement,
          time := some now,
          integral := some 0,
          error := some (st.setpoint - measurement) })
  | some _ =>
      match st.time, st.integral, st.error with
      | some t, some integral0, some last_error =>
          let time_now := now
          let delta_time := time_now - t
          let value := measurement
          let error := st.setpoint - value
          let p := st.kp * error
          let integral_i : ℝ × ℝ :=
            match st.ki with
            | none => (integral0, 0)
            | some ki =>
                let integral := integral0 + error * delta_time
                let i := ki * integral
                let i := match st.integral_limit with
                  | none => i
                  | some lim => max (min i lim) ((-1) * lim)
                (integral, i)
          match st.kd with
          | none =>
              .ok (p + integral_i.2 + 0,
                { st with
                  value := some value, time := some time_now,
                  integral := some integral_i.1, error := some error })
          | some kd =>
              if delta_time = 0 then .error .zeroDiv
              else
                let d := kd * (error - last_error) / delta_time
                .ok (p + integral_i.2 + d,
                  { st with
                    value := some value, time := some time_now,
                    integral := some integral_i.1, error := some error })
      -- A `_value` without the other memories cannot arise; Python would
      -- raise a `TypeError` on the `None` arithmetic.
      | _, _, _ => .error .noneType

/-- One entry of the snapshot's `apples` list.  A position is a list of
coordinates of which the code only ever reads the first two
(`position[0:2]`, `Point`), kept here as a `Point`. -/
structure Apple where
  id : ℤ
  type : String
  position : Point
  deriving DecidableEq

/-- One entry of the snapshot's `robots` list. -/
structure Robot where
  id : ℤ
  position : Point
  direction : ℝ

/-- One polled game-state snapshot (the decoded `game.json`). -/
structure Snapshot where
  gameOn : Bool
  timeLeft : ℝ
  robots : List Robot
  apples : List Apple

/-- The accumulator loop of `get_closest_good_apple` (`Main.py`
lines 407-414): `min_dist` starts at `float("inf")`, modelled as
`(⊤ : EReal)`; every finite distance compares below it. -/
def closestGoodAux (robot_pos : Point) (closest_id : ℤ) :
    List Apple → Option Apple → EReal → Option Apple
  | [], min_apple, _ => min_apple
  | apple :: rest, min_apple, min_dist =>
      if apple.type = "appleGood" ∧ apple.id ≠ closest_id then
        -- `atm_dist = get_distance(robot_pos_arg, Point(apple['position'][0:2]))`
        if (get_distance robot_pos apple.position : EReal) < min_dist then
          closestGoodAux robot_pos closest_id rest (some apple)
            (get_distance robot_pos apple.position)
        else
          closestGoodAux robot_pos closest_id rest min_apple min_dist
      else closestGoodAux robot_pos closest_id rest min_apple min_dist

/-- `get_closest_good_apple` (`Main.py` lines 403-415): the closest apple
of type `"appleGood"` whose id differs from `closest_id`, or `none`. -/
def get_closest_good_apple (game_state : Snapshot) (robot_pos : Point)
    (closest_id : ℤ) : Option Apple :=
  closestGoodAux robot_pos closest_id game_state.apples none ⊤

/-- `in_team_one` (`Main.py` lines 454-461). -/
def in_team_one (position : Point) : Bool :=
  if 1 < position.x ∧ position.x < 520 then
    (if 1525 > position.y ∧ position.y > 520 then true else false)
  else false

/-- `in_team_two` (`Main.py` lines 464-471). -/
def in_team_two (position : Point) : Bool :=
  if 3046 < position.x ∧ position.x < 3559 then
    (if 1525 > position.y ∧ position.y > 520 then true else false)
  else false

/-- `State` (`Main.py` lines 23-37): the states of the robot. -/
inductive State where
  | GET_APPLE
  | GET_TURN
  | GET_STRAIGHT
  | HOME
  | HOME_TURN
  | HOME_STRAIGHT
  | BACK_OFF
  deriving DecidableEq, Repr

/-- The mutable variables of the main loop (`Main.py` lines 559-640)
that survive from one tick to the next.  `state_old` is initialised to
`-1` in Python, which compares unequal to every `State`; this is
modelled by `Option State` with `none` for `-1`.  `target` starts as
`None`.  `closest_apple_old`, `state_old_target` and the diagnostics
file/counter are written but never read and are omitted.
`robot_near_target_old` and `timer_near_target` are unassigned in Python
until first written; every reachable read is preceded by a write, so an
arbitrary initial value is faithful. -/
structure MainState where
  PID_turn : PIDState
  PID_frwd_base : PIDState
  PID_frwd_turn : PIDState
  PID_turn_apple : PIDState
  PID_frwd_base_apple : PIDState
  PID_frwd_turn_apple : PIDState
  pid_frwd_base_apple_multiplier : ℝ
  speed_right : ℝ
  speed_left : ℝ
  robot_dir_hist : List ℝ
  robot_dist_hist : List ℝ
  t_old : ℝ
  state : State
  state_old : Option State
  closest_apple_id_old : ℤ
  target : Option Point
  target_dist : ℝ
  target_angle : ℝ
  robot_near_target_old : Bool
  timer_near_target : ℝ

/-- The input consumed by one pass of the main loop: the wall-clock
reading `time()` at the top of the loop (also used for the `time()`
calls inside `PID.update` during the tick) and the decoded server
response; `none` models `conn.request() == -1`. -/
structure TickIn where
  now : ℝ
  fetch : Option Snapshot

/-- The actuation command issued at the end of a tick:
`run r l` is `motor_right.run_forever(speed_sp=r)` /
`motor_left.run_forever(speed_sp=l)` (`Main.py` lines 1032-1033), and
`brake` is the stop in the not-alive branch (lines 1037-1038). -/
inductive MotorAct where
  | run (right left : ℤ)
  | brake
  deriving DecidableEq, Repr

/-- The robot lookup of `Main.py` lines 668-676: scan `robots` for
`ROBOT_ID`; the loop has no `break`, so the last match wins. -/
def robotFind (game_state : Snapshot) : Option (Point × ℝ) :=
  game_state.robots.foldl
    (fun acc robot_data =>
      if robot_data.id = ROBOT_ID then
        some (robot_data.position, robot_data.direction)
      else acc)
    none

/-- `State.GET_APPLE` branch (`Main.py` lines 693-714).  When the
selector finds no apple, `closest_apple['id']` subscripts `None` and
raises a `TypeError`, modelled as `.error .noneType`. -/
def state_get_apple (game_state : Snapshot) (robot_pos : Point)
    (robot_dir : ℝ) (s : MainState) : Except PyErr MainState :=
  match get_closest_good_apple game_state robot_pos s.closest_apple_id_old with
  | none => .error .noneType
  | some closest_apple =>
      let target := closest_apple.position
      let target_dist := get_distance robot_pos target
      let target_angle := get_angle robot_pos robot_dir target
      let s := { s with
        closest_apple_id_old := closest_apple.id,
        target := some target,
        target_dist := target_dist,
        target_angle := target_angle,
        speed_right := 0,
        speed_left := 0 }
      if target_dist > DIST_EPS then
        .ok { s with state := .GET_TURN, robot_near_target_old := false }
      else
        .ok { s with state := .HOME }

/-- `State.HOME` branch (`Main.py` lines 716-739). -/
def state_home (home : Point) (robot_pos : Point) (robot_dir : ℝ)
    (s : MainState) : Except PyErr MainState :=
  let target := home
  let target_dist := get_distance robot_pos target
  let target_angle := get_angle robot_pos robot_dir target
  let s := { s with
    target := some target,
    target_dist := target_dist,
    target_angle := target_angle,
    speed_right := 0,
    speed_left := 0 }
  if target_dist > DIST_EPS then
    .ok { s with state := .HOME_TURN, robot_near_target_old := false }
  else
    .ok { s with state := .GET_APPLE }

/-- `State.GET_TURN` branch (`Main.py` lines 741-805).  The
`get_closest_good_apple` call whose result is only stored into the
never-read `closest_apple_old` is omitted.  Reading the `None` target
would raise an `AttributeError` (`.error .noneType`); every reachable
entry has a target set. -/
def state_get_turn (robot_pos : Point) (robot_dir : ℝ) (time_now : ℝ)
    (state_changed : Bool) (s : MainState) : Except PyErr MainState :=
  match s.target with
  | none => .error .noneType
  | some target =>
      let target_dist := get_distance robot_pos target
      let target_angle := get_angle robot_pos robot_dir target
      let pid := if state_changed then
          PID.reset s.PID_turn none none none none none
        else s.PID_turn
      let s := { s with
        target_dist := target_dist,
        target_angle := target_angle,
        PID_turn := pid }
      if (s.robot_dir_hist.countP fun a => decide (|a| > DIR_EPS)) = 0 then
        .ok { s with speed_right := 0, speed_left := 0, state := .GET_STRAIGHT }
      else
        match PID.update s.PID_turn target_angle time_now with
        | .error e => .error e
        | .ok (u, pid2) =>
            .ok { s with PID_turn := pid2, speed_right := -u, speed_left := u }

/-- `State.GET_STRAIGHT` branch (`Main.py` lines 807-875).  The arrival
case additionally runs the motors and closes the claws (external
actuation, omitted). -/
def state_get_straight (robot_pos : Point) (robot_dir : ℝ)
    (time_now loop_time : ℝ) (state_changed : Bool) (s : MainState) :
    Except PyErr MainState :=
  match s.target with
  | none => .error .noneType
  | some target =>
      let target_dist := get_distance robot_pos target
      let target_angle := get_angle robot_pos robot_dir target
      let pfb := if state_changed then
          PID.reset s.PID_frwd_base none none none none none
        else s.PID_frwd_base
      let pft := if state_changed then
          PID.reset s.PID_frwd_turn none none none none none
        else s.PID_frwd_turn
      let timer := if state_changed then TIMER_NEAR_TARGET
        else s.timer_near_target
      let robot_near_target := decide (target_dist < DIST_NEAR)
      let timer := if ¬s.robot_near_target_old ∧ robot_near_target then
          TIMER_NEAR_TARGET
        else timer
      let timer := if robot_near_target then timer - loop_time else timer
      let s := { s with
        target_dist := target_dist,
        target_angle := target_angle,
        PID_frwd_base := pfb,
        PID_frwd_turn := pft,
        timer_near_target := timer,
        robot_near_target_old := robot_near_target }
      if (s.robot_dist_hist.countP fun d => decide (d > DIST_EPS)) = 0 then
        .ok { s with speed_right := 0, speed_left := 0, state := .HOME }
      else if timer < 0 then
        .ok { s with speed_right := 0, speed_left := 0, state := .GET_TURN }
      else
        match PID.update s.PID_frwd_turn target_angle time_now with
        | .error e => .error e
        | .ok (u_turn, pft2) =>
            match PID.update s.PID_frwd_base target_dist time_now with
            | .error e => .error e
            | .ok (u_base0, pfb2) =>
                let u_base := min (max u_base0 (-SPEED_BASE_MAX)) SPEED_BASE_MAX
                .ok { s with
                  PID_frwd_turn := pft2,
                  PID_frwd_base := pfb2,
                  speed_right := -u_base - u_turn,
                  speed_left := -u_base + u_turn }

/-- `State.HOME_TURN` branch (`Main.py` lines 877-934): as `GET_TURN`
but driving `PID_turn_apple`. -/
def state_home_turn (robot_pos : Point) (robot_dir : ℝ) (time_now : ℝ)
    (state_changed : Bool) (s : MainState) : Except PyErr MainState :=
  match s.target with
  | none => .error .noneType
  | some target =>
      let target_dist := get_distance robot_pos target
      let target_angle := get_angle robot_pos robot_dir target
      let pid := if state_changed then
          PID.reset s.PID_turn_apple none none none none none
        else s.PID_turn_apple
      let s := { s with
        target_dist := target_dist,
        target_angle := target_angle,
        PID_turn_apple := pid }
      if (s.robot_dir_hist.countP fun a => decide (|a| > DIR_EPS)) = 0 then
        .ok { s with speed_right := 0, speed_left := 0, state := .HOME_STRAIGHT }
      else
        match PID.update s.PID_turn_apple target_angle time_now with
        | .error e => .error e
        | .ok (u, pid2) =>
            .ok { s with
              PID_turn_apple := pid2, speed_right := -u, speed_left := u }

/-- `State.HOME_STRAIGHT` branch (`Main.py` lines 936-1008): as
`GET_STRAIGHT` with the apple regulators, the home-zone short circuit
`smoDoma` and the creep-in multiplier.  The arrival case also opens the
claws (external actuation, omitted). -/
def state_home_straight (team_one : Bool) (robot_pos : Point)
    (robot_dir : ℝ) (time_now loop_time : ℝ) (state_changed : Bool)
    (s : MainState) : Except PyErr MainState :=
  match s.target with
  | none => .error .noneType
  | some target =>
      let smoDoma := if team_one then in_team_one robot_pos
        else in_team_two robot_pos
      let target_dist := get_distance robot_pos target
      let target_angle := get_angle robot_pos robot_dir target
      let pfb := if state_changed then
          PID.reset s.PID_frwd_base_apple none none none none none
        else s.PID_frwd_base_apple
      let pft := if state_changed then
          PID.reset s.PID_frwd_turn_apple none none none none none
        else s.PID_frwd_turn_apple
      let timer := if state_changed then TIMER_NEAR_TARGET
        else s.timer_near_target
      let mult := if state_changed then 1
        else s.pid_frwd_base_apple_multiplier
      let robot_near_target := decide (target_dist < DIST_NEAR)
      let mult := if ¬s.robot_near_target_old ∧ robot_near_target then (0.1 : ℝ)
        else mult
      let timer := if ¬s.robot_near_target_old ∧ robot_near_target then
          TIMER_NEAR_TARGET
        else timer
      let timer := if robot_near_target then timer - loop_time else timer
      let s := { s with
        target_dist := target_dist,
        target_angle := target_angle,
        PID_frwd_base_apple := pfb,
        PID_frwd_turn_apple := pft,
        timer_near_target := timer,
        pid_frwd_base_apple_multiplier := mult,
        robot_near_target_old := robot_near_target }
      if (s.robot_dist_hist.countP fun d => decide (d > DIST_EPS)) = 0
          ∨ smoDoma then
        .ok { s with speed_right := 0, speed_left := 0, state := .BACK_OFF }
      else if timer < 0 then
        .ok { s with speed_right := 0, speed_left := 0, state := .HOME_TURN }
      else
        match PID.update s.PID_frwd_turn_apple target_angle time_now with
        | .error e => .error e
        | .ok (u_turn0, pft2) =>
            let u_turn := u_turn0 * mult
            match PID.update s.PID_frwd_base_apple target_dist time_now with
            | .error e => .error e
            | .ok (u_base0, pfb2) =>
                let u_base0 := u_base0 * mult
                let u_base := min (max u_base0 (-SPEED_BASE_MAX)) SPEED_BASE_MAX
                .ok { s with
                  PID_frwd_turn_apple := pft2,
                  PID_frwd_base_apple := pfb2,
                  speed_right := -u_base - u_turn,
                  speed_left := -u_base + u_turn }

/-- `State.BACK_OFF` branch (`Main.py` lines 1010-1017): a fixed reverse
manoeuvre on the motors (external actuation, omitted), then back to
`GET_APPLE`.  The speed variables are left as they were. -/
def state_back_off (s : MainState) : Except PyErr MainState :=
  .ok { s with state := .GET_APPLE }

/-- The state dispatch of the main loop (`Main.py` lines 693-1017). -/
def stateDispatch (home : Point) (team_one : Bool) (game_state : Snapshot)
    (robot_pos : Point) (robot_dir : ℝ) (time_now loop_time : ℝ)
    (state_changed : Bool) (s : MainState) : Except PyErr MainState :=
  match s.state with
  | .GET_APPLE => state_get_apple game_state robot_pos robot_dir s
  | .HOME => state_home home robot_pos robot_dir s
  | .GET_TURN => state_get_turn robot_pos robot_dir time_now state_changed s
  | .GET_STRAIGHT =>
      state_get_straight robot_pos robot_dir time_now loop_time state_changed s
  | .HOME_TURN => state_home_turn robot_pos robot_dir time_now state_changed s
  | .HOME_STRAIGHT =>
      state_home_straight team_one robot_pos robot_dir time_now loop_time
        state_changed s
  | .BACK_OFF => state_back_off s

/-- The FIFO history update of `Main.py` lines 686-691: drop the oldest
sample (`popleft`) and append the previous tick's `target_angle` and
`target_dist`. -/
def pushHist (s : MainState) : MainState :=
  { s with
    robot_dir_hist := s.robot_dir_hist.tail ++ [s.target_angle],
    robot_dist_hist := s.robot_dist_hist.tail ++ [s.target_dist] }

/-- The output stage of `Main.py` lines 1019-1033: clamp both speeds to
`[-SPEED_MAX, SPEED_MAX]`, round them, store them back into the speed
variables and run the motors with the negated values. -/
def speedClamp (s2 : MainState) : MainState × Option MotorAct :=
  (({ s2 with
      speed_right :=
        ((pyRound (min (max s2.speed_right (-SPEED_MAX)) SPEED_MAX) : ℤ) : ℝ),
      speed_left :=
        ((pyRound (min (max s2.speed_left (-SPEED_MAX)) SPEED_MAX) : ℤ) : ℝ) }),
    some (.run (-(pyRound (min (max s2.speed_right (-SPEED_MAX)) SPEED_MAX)))
      (-(pyRound (min (max s2.speed_left (-SPEED_MAX)) SPEED_MAX)))))

/-- One pass of the main loop (`Main.py` lines 645-1038): measure the
loop time, detect a state change, fetch the game state, and either skip
the tick (decode error), run the active state and emit clamped and
rounded motor speeds, or brake the motors when the game is off or the
robot is not visible. -/
def mainTick (home : Point) (team_one : Bool) (s : MainState)
    (inp : TickIn) : Except PyErr (MainState × Option MotorAct) :=
  let time_now := inp.now
  let loop_time := time_now - s.t_old
  let state_changed := decide (s.state_old ≠ some s.state)
  let s := { s with t_old := time_now, state_old := some s.state }
  match inp.fetch with
  | none => .ok (s, none)
  | some game_state =>
      match robotFind game_state, game_state.gameOn with
      | some (robot_pos, robot_dir), true =>
          match stateDispatch home team_one game_state robot_pos robot_dir
              time_now loop_time state_changed (pushHist s) with
          | .error e => .error e
          | .ok s2 => .ok (speedClamp s2)
      | _, _ => .ok (s, some .brake)

/-- Iterated ticks of the main loop, keeping only the state. -/
def mainRun (home : Point) (team_one : Bool) (s : MainState) :
    List TickIn → Except PyErr MainState
  | [] => .ok s
  | inp :: rest =>
      match mainTick home team_one s inp with
      | .error e => .error e
      | .ok (s2, _) => mainRun home team_one s2 rest

/-! ### Helper lemmas -/

/-- A tick whose fetch failed only updates the loop clock and the
previous-state tracker. -/
lemma mainTick_fetch_err (home : Point) (t1 : Bool) (s : MainState)
    (inp : TickIn) (hf : inp.fetch = none) :
    mainTick home t1 s inp =
      .ok ({ s with t_old := inp.now, state_old := some s.state }, none) := by
  unfold mainTick
  rw [hf]

/-- A tick with the robot not visible or the game off brakes the motors
and only updates the loop clock and the previous-state tracker. -/
lemma mainTick_not_alive (home : Point) (t1 : Bool) (s : MainState)
    (inp : TickIn) (gs : Snapshot) (hf : inp.fetch = some gs)
    (h : robotFind gs = none ∨ gs.gameOn = false) :
    mainTick home t1 s inp =
      .ok ({ s with t_old := inp.now, state_old := some s.state },
        some .brake) := by
  unfold mainTick
  rw [hf]
  dsimp only
  rcases h with h | h
  · rw [h]
  · rw [h]
    rcases robotFind gs with - | ⟨p, d⟩ <;> rfl

/-- A tick with the game on and the robot visible pushes the history,
dispatches on the active state and clamps the speeds. -/
lemma mainTick_alive (home : Point) (t1 : Bool) (s : MainState)
    (inp : TickIn) (gs : Snapshot) (robot_pos : Point) (robot_dir : ℝ)
    (hf : inp.fetch = some gs)
    (hr : robotFind gs = some (robot_pos, robot_dir))
    (hg : gs.gameOn = true) :
    mainTick home t1 s inp =
      match stateDispatch home t1 gs robot_pos robot_dir inp.now
          (inp.now - s.t_old) (decide (s.state_old ≠ some s.state))
          (pushHist { s with t_old := inp.now, state_old := some s.state }) with
      | .error e => .error e
      | .ok s2 => .ok (speedClamp s2) := by
  unfold mainTick
  rw [hf]
  dsimp only
  rw [hr, hg]

lemma atan2_east : atan2 ((0 : ℝ) - 0) (1 - 0) = 0 := by
  have h1 : ((0 : ℝ) - 0) / (1 - 0) = 0 := by norm_num
  simp only [atan2, show (0 : ℝ) < 1 - 0 by norm_num, if_pos, h1,
    Real.arctan_zero]

lemma degrees_zero : degrees 0 = 0 := by simp [degrees]

/-- Bearing normalisation: on raw differences of magnitude at most 540
the single ±360 correction lands in the closed interval [-180, 180]. -/
lemma get_angle_rel_bounds (a a1 : ℝ) (h : |a - a1| ≤ 540) :
    -180 ≤ get_angle_rel a a1 ∧ get_angle_rel a a1 ≤ 180 := by
  have hl : -(540 : ℝ) ≤ a - a1 := (abs_le.mp h).1
  have hr : a - a1 ≤ 540 := (abs_le.mp h).2
  unfold get_angle_rel
  split_ifs with h1 h2
  · have : 180 < a - a1 := by
      rcases lt_abs.mp h1 with h' | h'
      · exact h'
      · linarith
    constructor <;> linarith
  · have : a - a1 < -180 := by
      rcases lt_abs.mp h1 with h' | h'
      · exact absurd h' (by push_neg at h2; intro hc; linarith)
      · linarith
    constructor <;> linarith
  · have := abs_le.mp (le_of_not_lt h1)
    constructor <;> linarith

/-- Shifting the heading by 360 commutes with the single-correction
normalisation exactly when the raw difference is in [-180, 540] and is
not the boundary value 180. -/
lemma get_angle_rel_heading_shift (a a1 : ℝ) (h1 : -180 ≤ a - a1)
    (h2 : a - a1 ≤ 540) (h3 : a - a1 ≠ 180) :
    get_angle_rel a (a1 + 360) = get_angle_rel a a1 := by
  have key : a - (a1 + 360) = (a - a1) - 360 := by ring
  rcases lt_or_le 180 (a - a1) with hgt | hle
  · -- r ∈ (180, 540]: left side needs no correction, right side one.
    have hL : ¬ |a - (a1 + 360)| > 180 := by
      rw [key, not_lt, abs_le]; constructor <;> linarith
    have hR : |a - a1| > 180 := lt_abs.mpr (Or.inl hgt)
    unfold get_angle_rel
    rw [if_neg hL, if_pos hR, if_pos (by linarith : a - a1 > 0)]
    ring
  · -- r ∈ [-180, 180): left side corrects by +360, right side not.
    have hlt : a - a1 < 180 := lt_of_le_of_ne hle h3
    have hL : |a - (a1 + 360)| > 180 := by
      rw [key]; exact lt_abs.mpr (Or.inr (by linarith))
    have hLneg : ¬ a - (a1 + 360) > 0 := by rw [key]; intro hc; linarith
    have hR : ¬ |a - a1| > 180 := by
      rw [not_lt, abs_le]; constructor <;> linarith
    unfold get_angle_rel
    rw [if_pos hL, if_neg hLneg, if_neg hR]
    ring

/-- Shifting the absolute bearing by 360 commutes with the
single-correction normalisation exactly when the raw difference is in
[-540, 180] and is not the boundary value -180. -/
lemma get_angle_rel_bearing_shift (a a1 : ℝ) (h1 : -540 ≤ a - a1)
    (h2 : a - a1 ≤ 180) (h3 : a - a1 ≠ -180) :
    get_angle_rel (a + 360) a1 = get_angle_rel a a1 := by
  have key : (a + 360) - a1 = (a - a1) + 360 := by ring
  rcases lt_or_le (a - a1) (-180) with hlt | hge
  · -- r ∈ [-540, -180): left side needs no correction, right side one.
    have hL : ¬ |(a + 360) - a1| > 180 := by
      rw [key, not_lt, abs_le]; constructor <;> linarith
    have hR : |a - a1| > 180 := lt_abs.mpr (Or.inr (by linarith))
    unfold get_angle_rel
    rw [if_neg hL, if_pos hR, if_neg (by linarith : ¬ a - a1 > 0)]
    ring
  · -- r ∈ (-180, 180]: left side corrects by -360, right side not.
    have hgt : -180 < a - a1 := lt_of_le_of_ne hge (Ne.symm h3)
    have hL : |(a + 360) - a1| > 180 := by
      rw [key]; exact lt_abs.mpr (Or.inl (by linarith))
    have hLpos : (a + 360) - a1 > 0 := by rw [key]; linarith
    have hR : ¬ |a - a1| > 180 := by
      rw [not_lt, abs_le]; constructor <;> linarith
    unfold get_angle_rel
    rw [if_pos hL, if_pos hLpos, if_neg hR]
    ring

/-- An apple the selector may return: matching type, id not excluded. -/
def isGoodCand (closest_id : ℤ) (a : Apple) : Prop :=
  a.type = "appleGood" ∧ a.id ≠ closest_id

/-- The accumulator is returned unchanged when no candidate in the rest
of the list beats the accumulated distance. -/
lemma closestGoodAux_const (robot_pos : Point) (closest_id : ℤ) :
    ∀ (l : List Apple) (acc : Option Apple) (accd : EReal),
      (∀ b ∈ l, isGoodCand closest_id b →
        ¬ ((get_distance robot_pos b.position : EReal) < accd)) →
      closestGoodAux robot_pos closest_id l acc accd = acc := by
  intro l
  induction l with
  | nil => intro acc accd _; rfl
  | cons c rest ih =>
      intro acc accd h
      unfold closestGoodAux
      by_cases hc : c.type = "appleGood" ∧ c.id ≠ closest_id
      · rw [if_pos hc,
          if_neg (h c (List.mem_cons_self c rest) hc)]
        exact ih acc accd fun b hb => h b (List.mem_cons_of_mem c hb)
      · rw [if_neg hc]
        exact ih acc accd fun b hb => h b (List.mem_cons_of_mem c hb)

/-- When some candidate beats the accumulated distance, the loop
returns the first candidate that is strictly closer than every earlier
candidate and at least as close as every later one. -/
lemma closestGoodAux_found (robot_pos : Point) (closest_id : ℤ) :
    ∀ (l : List Apple) (acc : Option Apple) (accd : EReal),
      (∃ b ∈ l, isGoodCand closest_id b ∧
        (get_distance robot_pos b.position : EReal) < accd) →
      ∃ a l1 l2,
        closestGoodAux robot_pos closest_id l acc accd = some a
        ∧ isGoodCand closest_id a
        ∧ l = l1 ++ a :: l2
        ∧ (get_distance robot_pos a.position : EReal) < accd
        ∧ (∀ b ∈ l1, isGoodCand closest_id b →
            get_distance robot_pos a.position
              < get_distance robot_pos b.position)
        ∧ (∀ b ∈ l2, isGoodCand closest_id b →
            get_distance robot_pos a.position
              ≤ get_distance robot_pos b.position) := by
  intro l
  induction l with
  | nil => rintro acc accd ⟨b, hb, -⟩; exact absurd hb (List.not_mem_nil b)
  | cons c rest ih =>
      rintro acc accd ⟨b, hb, hbc, hbd⟩
      by_cases hc : c.type = "appleGood" ∧ c.id ≠ closest_id
      · by_cases hlt :
            (get_distance robot_pos c.position : EReal) < accd
        · -- `c` becomes the new accumulator.
          by_cases hrest : ∃ b2 ∈ rest, isGoodCand closest_id b2 ∧
              (get_distance robot_pos b2.position : EReal)
                < (get_distance robot_pos c.position : EReal)
          · obtain ⟨a, l1, l2, heq, hca, hsplit, hda, hl1, hl2⟩ :=
              ih (some c) (get_distance robot_pos c.position) hrest
            refine ⟨a, c :: l1, l2, ?_, hca, by rw [hsplit]; rfl,
              lt_trans hda hlt, ?_, hl2⟩
            · unfold closestGoodAux
              rw [if_pos hc, if_pos hlt]
              exact heq
            · intro b2 hb2 hcb2
              rcases List.mem_cons.mp hb2 with rfl | hmem
              · exact EReal.coe_lt_coe_iff.mp hda
              · exact hl1 b2 hmem hcb2
          · -- no later candidate beats `c`: the result is `c`.
            push_neg at hrest
            refine ⟨c, [], rest, ?_, hc, rfl, hlt, by simp, ?_⟩
            · unfold closestGoodAux
              rw [if_pos hc, if_pos hlt]
              exact closestGoodAux_const robot_pos closest_id rest
                (some c) _ fun b2 hb2 hcb2 => not_lt.mpr (hrest b2 hb2 hcb2)
            · intro b2 hb2 hcb2
              exact EReal.coe_le_coe_iff.mp (hrest b2 hb2 hcb2)
        · -- `c` is a candidate but not closer than the accumulator.
          have hbrest : b ∈ rest := by
            rcases List.mem_cons.mp hb with rfl | hmem
            · exact absurd hbd hlt
            · exact hmem
          obtain ⟨a, l1, l2, heq, hca, hsplit, hda, hl1, hl2⟩ :=
            ih acc accd ⟨b, hbrest, hbc, hbd⟩
          refine ⟨a, c :: l1, l2, ?_, hca, by rw [hsplit]; rfl, hda, ?_, hl2⟩
          · unfold closestGoodAux
            rw [if_pos hc, if_neg hlt]
            exact heq
          · intro b2 hb2 hcb2
            rcases List.mem_cons.mp hb2 with rfl | hmem
            · exact EReal.coe_lt_coe_iff.mp (lt_of_lt_of_le hda
                (not_lt.mp hlt))
            · exact hl1 b2 hmem hcb2
      · -- `c` is not a candidate: it is skipped.
        have hbrest : b ∈ rest := by
          rcases List.mem_cons.mp hb with rfl | hmem
          · exact absurd hbc hc
          · exact hmem
        obtain ⟨a, l1, l2, heq, hca, hsplit, hda, hl1, hl2⟩ :=
          ih acc accd ⟨b, hbrest, hbc, hbd⟩
        refine ⟨a, c :: l1, l2, ?_, hca, by rw [hsplit]; rfl, hda, ?_, hl2⟩
        · unfold closestGoodAux
          rw [if_neg hc]
          exact heq
        · intro b2 hb2 hcb2
          rcases List.mem_cons.mp hb2 with rfl | hmem
          · exact absurd hcb2 hc
          · exact hl1 b2 hmem hcb2

/-! ### Claims C3, C4, C5, C9 -/

/-- A PID regulator with `kd` configured that has already produced one
sample, used to exhibit the division by zero. -/
def pidDerivExample : PIDState :=
  { setpoint := 0, kp := 1, ki := none, kd := some 1,
    integral_limit := none, error := some 0, time := some 0,
    integral := some 0, value := some 0 }

/-- C3 counterexample: contrary to the claim, a non-first `update` with
`kd` configured and a measured elapsed time of 0 does divide by zero:
the derivative term `kd * (error - last_error) / delta_time` is
evaluated with `delta_time = 0`, raising `ZeroDivisionError`. -/
theorem C3_counterexample :
    PID.update pidDerivExample 0 0 = .error .zeroDiv := by
  norm_num [PID.update, pidDerivExample]

/-- C3 (amended): for every PID regulator with `kd` configured and a
previous sample stored, a call to `update` whose elapsed time
`now - last_time` is 0 raises `ZeroDivisionError` (the derivative term
divides by the elapsed time with no guard), and a call with a nonzero
elapsed time completes normally. -/
theorem C3_amended_dt_zero_divides (st : PIDState) (measurement now : ℝ)
    (v t intg er k : ℝ) (hv : st.value = some v) (ht : st.time = some t)
    (hi : st.integral = some intg) (he : st.error = some er)
    (hk : st.kd = some k) :
    (now - t = 0 → PID.update st measurement now = .error .zeroDiv)
    ∧ (now - t ≠ 0 → ∃ r, PID.update st measurement now = .ok r) := by
  constructor
  · intro hdt
    simp only [PID.update, hv, ht, hi, he, hk, if_pos hdt]
  · intro hdt
    simp only [PID.update, hv, ht, hi, he, hk, if_neg hdt]
    exact ⟨_, rfl⟩

/-- Witness for C3 (amended) at a concrete regulator: elapsed time 0
raises, elapsed time 1 succeeds. -/
theorem C3_amended_witness :
    PID.update pidDerivExample 0 0 = .error .zeroDiv
    ∧ ∃ r, PID.update pidDerivExample 0 1 = .ok r :=
  ⟨(C3_amended_dt_zero_divides pidDerivExample 0 0 0 0 0 0 1
      rfl rfl rfl rfl rfl).1 (by norm_num),
   (C3_amended_dt_zero_divides pidDerivExample 0 1 0 0 0 0 1
      rfl rfl rfl rfl rfl).2 (by norm_num)⟩

/-- C4 counterexample: with the robot at the origin heading 180° and the
target due east, the atan2 bearing is 0, the raw difference is -180,
whose magnitude does not exceed 180, so no correction is applied and
`get_angle` returns -180 — which is not in the claimed half-open
interval (-180, 180]. -/
theorem C4_counterexample :
    get_angle ⟨0, 0⟩ 180 ⟨1, 0⟩ = -180
    ∧ ¬ (-180 < get_angle ⟨0, 0⟩ 180 ⟨1, 0⟩) := by
  have h : get_angle ⟨0, 0⟩ 180 ⟨1, 0⟩ = -180 := by
    unfold get_angle
    rw [show ((⟨1, 0⟩ : Point).y - (⟨0, 0⟩ : Point).y) = (0 : ℝ) - 0 by norm_num,
      show ((⟨1, 0⟩ : Point).x - (⟨0, 0⟩ : Point).x) = (1 : ℝ) - 0 by norm_num,
      atan2_east, degrees_zero]
    norm_num [get_angle_rel]
  exact ⟨h, by rw [h]; norm_num⟩

/-- C4 (amended): `get_angle p1 a1 p2` is the atan2 bearing in degrees
minus `a1` with a single ±360 correction when the magnitude exceeds
180, and whenever that raw difference has magnitude at most 540 (in
particular for headings within one turn of the bearing) the result lies
in the closed interval [-180, 180]; the endpoint -180 is attained, so
the interval cannot be sharpened to the half-open (-180, 180]. -/
theorem C4_amended_range (p1 p2 : Point) (a1 : ℝ)
    (h : |degrees (atan2 (p2.y - p1.y) (p2.x - p1.x)) - a1| ≤ 540) :
    get_angle p1 a1 p2 =
      get_angle_rel (degrees (atan2 (p2.y - p1.y) (p2.x - p1.x))) a1
    ∧ -180 ≤ get_angle p1 a1 p2 ∧ get_angle p1 a1 p2 ≤ 180 :=
  ⟨rfl, get_angle_rel_bounds _ _ h⟩

/-- Witness for C4 (amended): robot at the origin heading 90°, target
due east. -/
theorem C4_amended_witness :
    get_angle ⟨0, 0⟩ 90 ⟨1, 0⟩ =
      get_angle_rel (degrees (atan2 ((1 : ℝ) * 0 - 0) ((1 : ℝ) - 0))) 90
    ∧ -180 ≤ get_angle ⟨0, 0⟩ 90 ⟨1, 0⟩
    ∧ get_angle ⟨0, 0⟩ 90 ⟨1, 0⟩ ≤ 180 := by
  have h := C4_amended_range ⟨0, 0⟩ ⟨1, 0⟩ 90 (by
    rw [show ((⟨1, 0⟩ : Point).y - (⟨0, 0⟩ : Point).y) = (0 : ℝ) - 0 by norm_num,
      show ((⟨1, 0⟩ : Point).x - (⟨0, 0⟩ : Point).x) = (1 : ℝ) - 0 by norm_num,
      atan2_east, degrees_zero]
    norm_num)
  refine ⟨?_, h.2.1, h.2.2⟩
  rw [h.1]
  norm_num

/-- C5 (confirmed): the first `update` of a freshly constructed or
freshly reset PID regulator (stored `_value` is `None`) returns exactly
`kp * (setpoint - measurement)` and initialises the integral to 0, the
stored error to `setpoint - measurement` and the stored time to now;
and `reset` with no arguments preserves the setpoint and all gains while
clearing the memory, so the next `update` behaves as a first call. -/
theorem C5_first_update_proportional :
    (∀ (st : PIDState) (measurement now : ℝ), st.value = none →
      PID.update st measurement now =
        .ok (st.kp * (st.setpoint - measurement),
          { st with
            value := some measurement,
            time := some now,
            integral := some 0,
            error := some (st.setpoint - measurement) }))
    ∧ ∀ st : PIDState, PID.reset st none none none none none =
        { st with
          error := none
          time := none
          integral := none
          value := none } := by
  constructor
  · intro st measurement now h
    simp only [PID.update, h]
  · intro st
    rfl

/-- Witness for C5 at a concrete regulator (setpoint 0, kp 2,
measurement 3, time 7) and a concrete reset. -/
theorem C5_witness :
    PID.update (PID.new 0 2 none none none) 3 7 =
      .ok (2 * (0 - 3),
        { (PID.new 0 2 none none none) with
          value := some 3
          time := some 7
          integral := some 0
          error := some (0 - 3) })
    ∧ PID.reset pidDerivExample none none none none none =
      { pidDerivExample with
        error := none
        time := none
        integral := none
        value := none } :=
  ⟨C5_first_update_proportional.1 (PID.new 0 2 none none none) 3 7 rfl,
   C5_first_update_proportional.2 pidDerivExample⟩

/-- C9 counterexample: with the target due east (bearing 0) and heading
-180°, `get_angle` returns 180; adding 360 to the heading gives heading
180 and the result -180.  The function is therefore not invariant under
adding 360° to the heading input. -/
theorem C9_counterexample :
    get_angle ⟨0, 0⟩ ((-180) + 360) ⟨1, 0⟩ ≠ get_angle ⟨0, 0⟩ (-180) ⟨1, 0⟩ := by
  have hb : ((⟨1, 0⟩ : Point).y - (⟨0, 0⟩ : Point).y) = (0 : ℝ) - 0 := by
    norm_num
  have hx : ((⟨1, 0⟩ : Point).x - (⟨0, 0⟩ : Point).x) = (1 : ℝ) - 0 := by
    norm_num
  unfold get_angle
  rw [hb, hx, atan2_east, degrees_zero]
  norm_num [get_angle_rel]

/-- C9 (amended): adding 360° to the heading input leaves `get_angle`
unchanged exactly on ticks where the raw difference
`bearing - heading` lies in [-180, 540] and differs from the boundary
value 180; likewise adding 360° to the absolute bearing leaves the
normalisation unchanged when the raw difference lies in [-540, 180] and
differs from -180.  At the excluded boundary the two results differ by
360 (they are the two representatives ±180). -/
theorem C9_amended_shift_invariance (p1 p2 : Point) (a1 : ℝ) :
    (-180 ≤ degrees (atan2 (p2.y - p1.y) (p2.x - p1.x)) - a1 →
      degrees (atan2 (p2.y - p1.y) (p2.x - p1.x)) - a1 ≤ 540 →
      degrees (atan2 (p2.y - p1.y) (p2.x - p1.x)) - a1 ≠ 180 →
      get_angle p1 (a1 + 360) p2 = get_angle p1 a1 p2)
    ∧ ∀ a b : ℝ, -540 ≤ a - b → a - b ≤ 180 → a - b ≠ -180 →
      get_angle_rel (a + 360) b = get_angle_rel a b := by
  constructor
  · intro h1 h2 h3
    unfold get_angle
    exact get_angle_rel_heading_shift _ _ h1 h2 h3
  · intro a b h1 h2 h3
    exact get_angle_rel_bearing_shift a b h1 h2 h3

/-- Witness for C9 (amended): robot at the origin heading 0, target due
east (raw difference 0), and the bearing-shift half at 0/0. -/
theorem C9_amended_witness :
    get_angle ⟨0, 0⟩ (0 + 360) ⟨1, 0⟩ = get_angle ⟨0, 0⟩ 0 ⟨1, 0⟩
    ∧ get_angle_rel (0 + 360) 0 = get_angle_rel 0 0 := by
  have hb : ((⟨1, 0⟩ : Point).y - (⟨0, 0⟩ : Point).y) = (0 : ℝ) - 0 := by
    norm_num
  have hx : ((⟨1, 0⟩ : Point).x - (⟨0, 0⟩ : Point).x) = (1 : ℝ) - 0 := by
    norm_num
  have h := C9_amended_shift_invariance ⟨0, 0⟩ ⟨1, 0⟩ 0
  exact ⟨h.1 (by rw [hb, hx, atan2_east, degrees_zero]; norm_num)
      (by rw [hb, hx, atan2_east, degrees_zero]; norm_num)
      (by rw [hb, hx, atan2_east, degrees_zero]; norm_num),
    h.2 0 0 (by norm_num) (by norm_num) (by norm_num)⟩

/-! ### Claim C8: the target selector -/

/-- C8 (confirmed): `get_closest_good_apple` returns `none` when no
apple of type `"appleGood"` with id different from `closest_id` exists,
and otherwise returns a matching apple of minimal Euclidean distance
from the origin, the first such apple in snapshot iteration order among
equidistant candidates: every matching apple listed before the returned
one is strictly farther, every one after it at least as far. -/
theorem C8_closest_good_apple (gs : Snapshot) (pos : Point) (cid : ℤ) :
    ((∀ a ∈ gs.apples, ¬ (a.type = "appleGood" ∧ a.id ≠ cid)) →
      get_closest_good_apple gs pos cid = none)
    ∧ ((∃ a ∈ gs.apples, a.type = "appleGood" ∧ a.id ≠ cid) →
      ∃ a l1 l2,
        get_closest_good_apple gs pos cid = some a
        ∧ a.type = "appleGood" ∧ a.id ≠ cid
        ∧ gs.apples = l1 ++ a :: l2
        ∧ (∀ b ∈ l1, b.type = "appleGood" → b.id ≠ cid →
            get_distance pos a.position < get_distance pos b.position)
        ∧ (∀ b ∈ l2, b.type = "appleGood" → b.id ≠ cid →
            get_distance pos a.position ≤ get_distance pos b.position)) := by
  constructor
  · intro h
    exact closestGoodAux_const pos cid gs.apples none ⊤ fun b hb hcb =>
      absurd hcb (h b hb)
  · rintro ⟨a0, ha0, hc0⟩
    obtain ⟨a, l1, l2, heq, hca, hsplit, -, hl1, hl2⟩ :=
      closestGoodAux_found pos cid gs.apples none ⊤
        ⟨a0, ha0, hc0, EReal.coe_lt_top _⟩
    exact ⟨a, l1, l2, heq, hca.1, hca.2, hsplit,
      fun b hb h1 h2 => hl1 b hb ⟨h1, h2⟩,
      fun b hb h1 h2 => hl2 b hb ⟨h1, h2⟩⟩

/-! ### Concrete scenario used by the witnesses -/

/-- A good apple with id 1 due east of the origin at distance 100. -/
def apple1 : Apple := ⟨1, "appleGood", ⟨100, 0⟩⟩

/-- A good apple with id 2 due east of the origin at distance 200. -/
def apple2 : Apple := ⟨2, "appleGood", ⟨200, 0⟩⟩

/-- The home point used in the concrete scenarios. -/
def home0 : Point := ⟨0, 0⟩

/-- A snapshot with the robot at the origin heading east and one good
apple. -/
def snapOneGood : Snapshot := ⟨true, 100, [⟨35, ⟨0, 0⟩, 0⟩], [apple1]⟩

/-- A snapshot with the robot visible but no apples at all (hence no
apple of type `appleGood`). -/
def snapNoGood : Snapshot := ⟨true, 100, [⟨35, ⟨0, 0⟩, 0⟩], []⟩

/-- The initial values of the main-loop variables (`Main.py`
lines 559-640).  The six regulators carry the configured gain sets; the
initial `robot_dist_hist` holds `math.inf`, represented by 1000, which
compares identically against `DIST_EPS` in every test the loop makes. -/
def baseState : MainState :=
  { PID_turn := PID.new 0 1.4 (some 0) (some 0.53) (some 100)
    PID_frwd_base := PID.new 0 1 (some 0) (some 0.1) (some 100)
    PID_frwd_turn := PID.new 0 6 (some 0) (some 2) (some 100)
    PID_turn_apple := PID.new 0 4 (some 0) (some 0) (some 100)
    PID_frwd_base_apple := PID.new 0 1 (some 0) (some 0) (some 100)
    PID_frwd_turn_apple := PID.new 0 15 (some 0) (some 0) (some 100)
    pid_frwd_base_apple_multiplier := 1
    speed_right := 0
    speed_left := 0
    robot_dir_hist := [180, 180, 180]
    robot_dist_hist := [1000, 1000, 1000]
    t_old := 0
    state := .GET_APPLE
    state_old := none
    closest_apple_id_old := -1
    target := none
    target_dist := 0
    target_angle := 0
    robot_near_target_old := false
    timer_near_target := 0 }

/-- Witness for C8: on a snapshot with one good apple the selector
returns an apple. -/
theorem C8_witness :
    (get_closest_good_apple snapOneGood ⟨0, 0⟩ (-1)).isSome = true := by
  obtain ⟨a, l1, l2, heq, -⟩ :=
    (C8_closest_good_apple snapOneGood ⟨0, 0⟩ (-1)).2
      ⟨apple1, by simp [snapOneGood], rfl, by decide⟩
  rw [heq]
  rfl

/-! ### Claim C2: missing target in GET_APPLE -/

/-- C2: on a game-on tick with the robot visible, state `GET_APPLE` and
a snapshot containing no eligible good apple, the selector returns
`None` and the very next line `closest_apple['id']` subscripts it: the
tick raises a `TypeError` instead of holding zero speed in `GET_APPLE`
as the specification requires. -/
theorem C2_no_apple_crash :
    mainTick home0 true baseState ⟨1, some snapNoGood⟩ = .error .noneType := by
  rfl

/-! ### Claim C1: global speed clamp -/

/-- Bounds for Python's `round`: a real in `[-n, n]` rounds into
`[-n, n]`. -/
lemma pyRound_bounds (x : ℝ) (n : ℤ) (h1 : -(n : ℝ) ≤ x)
    (h2 : x ≤ (n : ℝ)) : -n ≤ pyRound x ∧ pyRound x ≤ n := by
  have hfl : -n ≤ ⌊x⌋ := Int.le_floor.mpr (by exact_mod_cast h1)
  have hfu : ⌊x⌋ ≤ n := by
    have h := Int.floor_le_floor h2
    rwa [Int.floor_intCast] at h
  have hup : ∀ hne : x - (⌊x⌋ : ℝ) > 0, ⌊x⌋ + 1 ≤ n := by
    intro hne
    rcases eq_or_lt_of_le hfu with heq | hlt
    · exfalso
      have hge : x - (⌊x⌋ : ℝ) ≤ 0 := by
        rw [heq]; linarith
      linarith
    · omega
  unfold pyRound
  split_ifs with ha hb hc
  · exact ⟨hfl, hfu⟩
  · exact ⟨by omega, hup (by linarith)⟩
  · exact ⟨hfl, hfu⟩
  · exact ⟨by omega, hup (by linarith)⟩

/-- The min/max clamp lands in `[-M, M]`. -/
lemma clamp_mem (x M : ℝ) (h : 0 ≤ M) :
    -M ≤ min (max x (-M)) M ∧ min (max x (-M)) M ≤ M :=
  ⟨le_min (le_max_right x (-M)) (by linarith), min_le_right _ _⟩

/-- C1 (confirmed): on every tick with the game on and the robot
visible that completes, the wheel-speed commands handed to the motors
are integers in `[-SPEED_MAX, SPEED_MAX]` = `[-800, 800]`, whatever the
active state and whatever values the PID regulators produced: the main
loop clamps both speeds to `[-SPEED_MAX, SPEED_MAX]` and rounds them
after the state dispatch. -/
theorem C1_motor_speed_bounds (home : Point) (team_one : Bool)
    (s : MainState) (inp : TickIn) (s2 : MainState) (act : Option MotorAct)
    (r l : ℤ) (h : mainTick home team_one s inp = .ok (s2, act))
    (ha : act = some (.run r l)) :
    -800 ≤ r ∧ r ≤ 800 ∧ -800 ≤ l ∧ l ≤ 800 := by
  subst ha
  unfold mainTick at h
  dsimp only at h
  split at h
  · simp at h
  · split at h
    · split at h
      · exact absurd h (by simp)
      · rename_i xm s3 hs3
        unfold speedClamp at h
        rw [Except.ok.injEq, Prod.mk.injEq] at h
        obtain ⟨-, h2⟩ := h
        rw [Option.some.injEq, MotorAct.run.injEq] at h2
        obtain ⟨hr, hl⟩ := h2
        have hM : (0 : ℝ) ≤ SPEED_MAX := by norm_num [SPEED_MAX]
        have h800 : ((800 : ℤ) : ℝ) = SPEED_MAX := by norm_num [SPEED_MAX]
        have hcr := clamp_mem s3.speed_right SPEED_MAX hM
        have hcl := clamp_mem s3.speed_left SPEED_MAX hM
        have hbr := pyRound_bounds
          (min (max s3.speed_right (-SPEED_MAX)) SPEED_MAX) 800
          (by
            rw [show -(((800 : ℤ) : ℝ)) = -SPEED_MAX by norm_num [SPEED_MAX]]
            exact hcr.1)
          (by rw [h800]; exact hcr.2)
        have hbl := pyRound_bounds
          (min (max s3.speed_left (-SPEED_MAX)) SPEED_MAX) 800
          (by
            rw [show -(((800 : ℤ) : ℝ)) = -SPEED_MAX by norm_num [SPEED_MAX]]
            exact hcl.1)
          (by rw [h800]; exact hcl.2)
        obtain ⟨hbr1, hbr2⟩ := hbr
        obtain ⟨hbl1, hbl2⟩ := hbl
        subst hr
        subst hl
        exact ⟨by linarith, by linarith, by linarith, by linarith⟩
    · simp at h

/-- The state after the history push on the witness tick. -/
def applePushed : MainState :=
  { baseState with
    t_old := 1
    state_old := some .GET_APPLE
    robot_dir_hist := [180, 180, 0]
    robot_dist_hist := [1000, 1000, 0] }

/-- The state after the `GET_APPLE` dispatch on the witness tick: the
apple at distance exactly 100 is within `DIST_EPS`, so the state moves
to `HOME`. -/
def appleDispatched : MainState :=
  { applePushed with
    closest_apple_id_old := 1
    target := some apple1.position
    target_dist := 100
    target_angle := 0
    speed_right := 0
    speed_left := 0
    state := .HOME }

lemma dist_origin_east (d : ℝ) (hd : 0 ≤ d) :
    get_distance ⟨0, 0⟩ ⟨d, 0⟩ = d := by
  unfold get_distance
  rw [show ((⟨d, 0⟩ : Point).x - (⟨0, 0⟩ : Point).x) ^ 2
      + ((⟨d, 0⟩ : Point).y - (⟨0, 0⟩ : Point).y) ^ 2 = d ^ 2 by
    dsimp only
    ring]
  exact Real.sqrt_sq hd

lemma atan2_zero_pos (y x : ℝ) (hy : y = 0) (hx : 0 < x) :
    atan2 y x = 0 := by
  subst hy
  rw [atan2, if_pos hx, zero_div, Real.arctan_zero]

lemma angle_origin_east (d : ℝ) (hd : 0 < d) :
    get_angle ⟨0, 0⟩ 0 ⟨d, 0⟩ = 0 := by
  unfold get_angle
  rw [atan2_zero_pos _ _ (by dsimp only; ring) (by dsimp only; linarith),
    degrees_zero]
  norm_num [get_angle_rel]

lemma sel_one_good :
    get_closest_good_apple snapOneGood ⟨0, 0⟩ (-1) = some apple1 := by
  unfold get_closest_good_apple snapOneGood
  dsimp only
  unfold closestGoodAux
  rw [if_pos (⟨rfl, by decide⟩ : apple1.type = "appleGood" ∧ apple1.id ≠ -1),
    if_pos (EReal.coe_lt_top _)]
  rfl

lemma clamp_zero : min (max (0 : ℝ) (-SPEED_MAX)) SPEED_MAX = 0 := by
  rw [max_eq_left (by norm_num [SPEED_MAX]), min_eq_left (by norm_num [SPEED_MAX])]

lemma pyRound_zero : pyRound 0 = 0 := by
  unfold pyRound
  rw [if_pos (by norm_num)]
  exact Int.floor_zero

/-- Evaluation of one alive `GET_APPLE` tick of the concrete scenario. -/
lemma tick_apple_eval :
    mainTick home0 true baseState ⟨1, some snapOneGood⟩ =
      .ok (appleDispatched, some (.run 0 0)) := by
  have hbranch : state_get_apple snapOneGood ⟨0, 0⟩ 0 applePushed =
      .ok appleDispatched := by
    unfold state_get_apple
    rw [show applePushed.closest_apple_id_old = -1 from rfl, sel_one_good]
    dsimp only
    rw [show apple1.position = (⟨100, 0⟩ : Point) from rfl,
      dist_origin_east 100 (by norm_num), angle_origin_east 100 (by norm_num),
      if_neg (by norm_num [DIST_EPS])]
    rfl
  have hdisp : stateDispatch home0 true snapOneGood ⟨0, 0⟩ 0
      (TickIn.mk 1 (some snapOneGood)).now
      ((TickIn.mk 1 (some snapOneGood)).now - baseState.t_old)
      (decide (baseState.state_old ≠ some baseState.state))
      (pushHist { baseState with
        t_old := (TickIn.mk 1 (some snapOneGood)).now
        state_old := some baseState.state }) = .ok appleDispatched := hbranch
  rw [mainTick_alive home0 true baseState ⟨1, some snapOneGood⟩ snapOneGood
    ⟨0, 0⟩ 0 rfl rfl rfl, hdisp]
  show Except.ok (speedClamp appleDispatched) = _
  unfold speedClamp
  rw [show appleDispatched.speed_right = (0 : ℝ) from rfl,
    show appleDispatched.speed_left = (0 : ℝ) from rfl, clamp_zero,
    pyRound_zero]
  norm_num
  rfl

/-- Witness for C1: the concrete `GET_APPLE` tick emits the in-range
command `run 0 0`. -/
theorem C1_witness :
    -800 ≤ (0 : ℤ) ∧ (0 : ℤ) ≤ 800 ∧ -800 ≤ (0 : ℤ) ∧ (0 : ℤ) ≤ 800 :=
  C1_motor_speed_bounds home0 true baseState ⟨1, some snapOneGood⟩
    appleDispatched (some (.run 0 0)) 0 0 tick_apple_eval rfl

/-! ### Claim C7: freeze while not visible / game off -/

lemma stateDispatch_get_turn (home : Point) (t1 : Bool) (gs : Snapshot)
    (pos : Point) (dir tn lt : ℝ) (sc : Bool) (s : MainState)
    (hst : s.state = .GET_TURN) :
    stateDispatch home t1 gs pos dir tn lt sc s =
      state_get_turn pos dir tn sc s := by
  unfold stateDispatch
  rw [hst]

/-- The `GET_TURN` branch on a tick with no state change and the
direction history not yet settled: the turn PID is driven, not reset. -/
lemma state_get_turn_update (pos : Point) (dir tn : ℝ) (s : MainState)
    (tgt : Point) (u : ℝ) (pid2 : PIDState)
    (htgt : s.target = some tgt)
    (hhist : s.robot_dir_hist.countP (fun a => decide (|a| > DIR_EPS)) ≠ 0)
    (hupd : PID.update s.PID_turn (get_angle pos dir tgt) tn = .ok (u, pid2)) :
    state_get_turn pos dir tn false s =
      .ok { s with
        target_dist := get_distance pos tgt,
        target_angle := get_angle pos dir tgt,
        PID_turn := pid2,
        speed_right := -u,
        speed_left := u } := by
  unfold state_get_turn
  rw [htgt]
  dsimp only
  rw [if_neg hhist, if_neg Bool.false_ne_true, hupd]

/-- C7 (confirmed): on a tick where the feed reports the game off or the
robot not visible, the motors are braked and the whole control state —
every PID regulator, both history windows, the state variable, the
speeds, the target memory — is unchanged except for the loop clock and
the previous-state tracker (which receives the unchanged state); and if
such a tick interrupts `GET_TURN`, the next visible tick drives the turn
PID from its stored memory without resetting it: the run of the two
ticks ends with `PID_turn` equal to `PID.update` applied to the original
regulator state. -/
theorem C7_not_alive_freeze :
    (∀ (home : Point) (t1 : Bool) (s : MainState) (inp : TickIn)
      (gs : Snapshot), inp.fetch = some gs →
      (robotFind gs = none ∨ gs.gameOn = false) →
      mainTick home t1 s inp =
        .ok ({ s with t_old := inp.now, state_old := some s.state },
          some .brake))
    ∧ (∀ (home : Point) (t1 : Bool) (s : MainState) (inp1 inp2 : TickIn)
        (gs1 gs2 : Snapshot) (pos : Point) (dir : ℝ) (tgt : Point) (u : ℝ)
        (pid2 : PIDState),
      inp1.fetch = some gs1 →
      (robotFind gs1 = none ∨ gs1.gameOn = false) →
      inp2.fetch = some gs2 →
      robotFind gs2 = some (pos, dir) →
      gs2.gameOn = true →
      s.state = .GET_TURN →
      s.target = some tgt →
      (s.robot_dir_hist.tail ++ [s.target_angle]).countP
        (fun a => decide (|a| > DIR_EPS)) ≠ 0 →
      PID.update s.PID_turn (get_angle pos dir tgt) inp2.now = .ok (u, pid2) →
      mainTick home t1 s inp1 =
        .ok ({ s with t_old := inp1.now, state_old := some s.state },
          some .brake)
      ∧ ∃ s3, mainRun home t1 s [inp1, inp2] = .ok s3
          ∧ s3.PID_turn = pid2 ∧ s3.state = .GET_TURN) := by
  constructor
  · intro home t1 s inp gs hf h
    exact mainTick_not_alive home t1 s inp gs hf h
  · intro home t1 s inp1 inp2 gs1 gs2 pos dir tgt u pid2 hf1 hna hf2 hr2 hg2
      hst htgt hhist hupd
    have h1 := mainTick_not_alive home t1 s inp1 gs1 hf1 hna
    refine ⟨h1, ?_⟩
    -- the state after the braked tick
    set s2 : MainState :=
      { s with t_old := inp1.now, state_old := some s.state } with hs2
    -- the state after the clock update and history push of the second tick
    set s4 : MainState :=
      pushHist { s2 with t_old := inp2.now, state_old := some s2.state }
      with hs4
    have hs4st : s4.state = .GET_TURN := hst
    have hs4tgt : s4.target = some tgt := htgt
    have hs4hist : s4.robot_dir_hist.countP
        (fun a => decide (|a| > DIR_EPS)) ≠ 0 := hhist
    have hsc : decide (s2.state_old ≠ some s2.state) = false := by
      simp [hs2]
    have hdisp : stateDispatch home t1 gs2 pos dir inp2.now
        (inp2.now - s2.t_old) (decide (s2.state_old ≠ some s2.state)) s4 =
        .ok { s4 with
          target_dist := get_distance pos tgt,
          target_angle := get_angle pos dir tgt,
          PID_turn := pid2,
          speed_right := -u,
          speed_left := u } := by
      rw [stateDispatch_get_turn home t1 gs2 pos dir inp2.now
        (inp2.now - s2.t_old) _ s4 hs4st, hsc]
      exact state_get_turn_update pos dir inp2.now s4 tgt u pid2 hs4tgt
        hs4hist hupd
    have h2 : mainTick home t1 s2 inp2 =
        .ok (speedClamp { s4 with
          target_dist := get_distance pos tgt,
          target_angle := get_angle pos dir tgt,
          PID_turn := pid2,
          speed_right := -u,
          speed_left := u }) := by
      rw [mainTick_alive home t1 s2 inp2 gs2 pos dir hf2 hr2 hg2, hdisp]
    refine ⟨(speedClamp { s4 with
        target_dist := get_distance pos tgt,
        target_angle := get_angle pos dir tgt,
        PID_turn := pid2,
        speed_right := -u,
        speed_left := u }).1, ?_, rfl, hst⟩
    unfold mainRun
    rw [h1]
    dsimp only
    unfold mainRun
    rw [h2]
    rfl

/-- A snapshot with the game off (the robot row is present but the tick
must brake regardless). -/
def snapOff : Snapshot := ⟨false, 100, [⟨35, ⟨0, 0⟩, 0⟩], []⟩

/-- A turn regulator mid-flight: one sample stored, nonzero error and
integral memory. -/
def wPidTurn : PIDState :=
  { setpoint := 0, kp := 2, ki := none, kd := none, integral_limit := none,
    error := some 7, time := some 0, integral := some 3, value := some 5 }

/-- A main state in the middle of `GET_TURN`, heading for the apple at
(100, 0), with the direction history far from settled. -/
def wTurnState : MainState :=
  { baseState with
    state := .GET_TURN
    state_old := some .GET_TURN
    target := some ⟨100, 0⟩
    target_angle := 180
    PID_turn := wPidTurn }

/-- Witness for C7: after a game-off tick followed by a visible tick,
the state is still `GET_TURN` and the turn PID still carries the
integral memory 3 it had before visibility was lost (it was updated,
not reset). -/
theorem C7_witness :
    (mainRun home0 true wTurnState
        [⟨1, some snapOff⟩, ⟨2, some snapOneGood⟩]).map
      (fun s3 => s3.state) = .ok .GET_TURN
    ∧ (mainRun home0 true wTurnState
        [⟨1, some snapOff⟩, ⟨2, some snapOneGood⟩]).map
      (fun s3 => s3.PID_turn.integral) = .ok (some 3) := by
  have hhist : (wTurnState.robot_dir_hist.tail
      ++ [wTurnState.target_angle]).countP
      (fun a => decide (|a| > DIR_EPS)) ≠ 0 := by
    rw [show wTurnState.robot_dir_hist.tail ++ [wTurnState.target_angle] =
      [(180 : ℝ), 180, 180] from rfl]
    have hp : (fun a => decide (|a| > DIR_EPS)) (180 : ℝ) = true := by
      simp only [decide_eq_true_eq, DIR_EPS]
      rw [abs_of_pos (by norm_num : (0 : ℝ) < 180)]
      norm_num
    have hpos : 0 < List.countP (fun a => decide (|a| > DIR_EPS))
        [(180 : ℝ), 180, 180] :=
      List.countP_pos_iff.mpr ⟨180, by simp, by simpa using hp⟩
    exact Nat.pos_iff_ne_zero.mp hpos
  have hupd : PID.update wTurnState.PID_turn
      (get_angle ⟨0, 0⟩ 0 ⟨100, 0⟩) (TickIn.mk 2 (some snapOneGood)).now =
      .ok (2 * (0 - 0) + 0 + 0,
        { wPidTurn with
          value := some 0
          time := some 2
          integral := some 3
          error := some (0 - 0) }) := by
    rw [angle_origin_east 100 (by norm_num)]
    rfl
  obtain ⟨-, s3, hrun, hpid, hstate⟩ :=
    C7_not_alive_freeze.2 home0 true wTurnState ⟨1, some snapOff⟩
      ⟨2, some snapOneGood⟩ snapOff snapOneGood ⟨0, 0⟩ 0 ⟨100, 0⟩
      (2 * (0 - 0) + 0 + 0)
      { wPidTurn with
        value := some 0
        time := some 2
        integral := some 3
        error := some (0 - 0) }
      rfl (Or.inr rfl) rfl rfl rfl rfl rfl hhist hupd
  rw [hrun]
  exact ⟨by simp [Except.map, hstate], by simp [Except.map, hpid]⟩

/-! ### Claim C10: the excluded-id memory -/

/-- An input on which the active-state dispatch runs: the fetch
succeeded, the game is on and the robot is visible. -/
def aliveInput (inp : TickIn) : Prop :=
  ∃ gs pos dir, inp.fetch = some gs ∧ gs.gameOn = true
    ∧ robotFind gs = some (pos, dir)

/-- A tick that evaluates the `GET_APPLE` branch (a SeekTarget
selection). -/
def dispatchesApple (s : MainState) (inp : TickIn) : Prop :=
  s.state = .GET_APPLE ∧ aliveInput inp

/-- Executions of the main loop that never evaluate the `GET_APPLE`
branch: the ticks between two consecutive SeekTarget selections. -/
inductive ReachAvoidingApple (home : Point) (t1 : Bool) :
    MainState → MainState → Prop where
  | refl (s : MainState) : ReachAvoidingApple home t1 s s
  | step (s s2 s3 : MainState) (inp : TickIn) (out : Option MotorAct)
      (hnd : ¬ dispatchesApple s inp)
      (ht : mainTick home t1 s inp = .ok (s2, out))
      (hr : ReachAvoidingApple home t1 s2 s3) :
      ReachAvoidingApple home t1 s s3

/-- The selector only ever returns an accumulator entry or a candidate
from the list. -/
lemma closestGoodAux_sound (robot_pos : Point) (closest_id : ℤ) :
    ∀ (l : List Apple) (acc : Option Apple) (accd : EReal) (a : Apple),
      closestGoodAux robot_pos closest_id l acc accd = some a →
      acc = some a ∨ (a ∈ l ∧ a.type = "appleGood" ∧ a.id ≠ closest_id) := by
  intro l
  induction l with
  | nil => intro acc accd a h; exact Or.inl h
  | cons c rest ih =>
      intro acc accd a h
      unfold closestGoodAux at h
      by_cases hc : c.type = "appleGood" ∧ c.id ≠ closest_id
      · rw [if_pos hc] at h
        by_cases hlt :
            (get_distance robot_pos c.position : EReal) < accd
        · rw [if_pos hlt] at h
          rcases ih (some c) _ a h with heq | ⟨hmem, hca⟩
          · rw [Option.some.injEq] at heq
            subst heq
            exact Or.inr ⟨List.mem_cons_self c rest, hc⟩
          · exact Or.inr ⟨List.mem_cons_of_mem c hmem, hca⟩
        · rw [if_neg hlt] at h
          rcases ih acc accd a h with hl | ⟨hmem, hca⟩
          · exact Or.inl hl
          · exact Or.inr ⟨List.mem_cons_of_mem c hmem, hca⟩
      · rw [if_neg hc] at h
        rcases ih acc accd a h with hl | ⟨hmem, hca⟩
        · exact Or.inl hl
        · exact Or.inr ⟨List.mem_cons_of_mem c hmem, hca⟩

/-- A returned apple never carries the excluded id. -/
lemma sel_id_ne (gs : Snapshot) (pos : Point) (cid : ℤ) (a : Apple)
    (h : get_closest_good_apple gs pos cid = some a) : a.id ≠ cid := by
  rcases closestGoodAux_sound pos cid gs.apples none ⊤ a h with hl | ⟨-, -, hne⟩
  · exact absurd hl (by simp)
  · exact hne

lemma stateDispatch_get_apple (home : Point) (t1 : Bool) (gs : Snapshot)
    (pos : Point) (dir tn lt : ℝ) (sc : Bool) (s : MainState)
    (hst : s.state = .GET_APPLE) :
    stateDispatch home t1 gs pos dir tn lt sc s =
      state_get_apple gs pos dir s := by
  unfold stateDispatch
  rw [hst]

/-- `GET_APPLE` records the selected apple's id immediately, whichever
way the branch then transitions. -/
lemma state_get_apple_records (gs : Snapshot) (pos : Point) (dir : ℝ)
    (s : MainState) (a : Apple) (s2 : MainState)
    (hsel : get_closest_good_apple gs pos s.closest_apple_id_old = some a)
    (h : state_get_apple gs pos dir s = .ok s2) :
    s2.closest_apple_id_old = a.id := by
  unfold state_get_apple at h
  rw [hsel] at h
  dsimp only at h
  split at h
  · obtain rfl := Except.ok.inj h
    rfl
  · obtain rfl := Except.ok.inj h
    rfl

lemma stateDispatch_home (home : Point) (t1 : Bool) (gs : Snapshot)
    (pos : Point) (dir tn lt : ℝ) (sc : Bool) (s : MainState)
    (hst : s.state = .HOME) :
    stateDispatch home t1 gs pos dir tn lt sc s =
      state_home home pos dir s := by
  unfold stateDispatch
  rw [hst]

lemma stateDispatch_get_straight (home : Point) (t1 : Bool) (gs : Snapshot)
    (pos : Point) (dir tn lt : ℝ) (sc : Bool) (s : MainState)
    (hst : s.state = .GET_STRAIGHT) :
    stateDispatch home t1 gs pos dir tn lt sc s =
      state_get_straight pos dir tn lt sc s := by
  unfold stateDispatch
  rw [hst]

lemma stateDispatch_home_turn (home : Point) (t1 : Bool) (gs : Snapshot)
    (pos : Point) (dir tn lt : ℝ) (sc : Bool) (s : MainState)
    (hst : s.state = .HOME_TURN) :
    stateDispatch home t1 gs pos dir tn lt sc s =
      state_home_turn pos dir tn sc s := by
  unfold stateDispatch
  rw [hst]

lemma stateDispatch_home_straight (home : Point) (t1 : Bool) (gs : Snapshot)
    (pos : Point) (dir tn lt : ℝ) (sc : Bool) (s : MainState)
    (hst : s.state = .HOME_STRAIGHT) :
    stateDispatch home t1 gs pos dir tn lt sc s =
      state_home_straight t1 pos dir tn lt sc s := by
  unfold stateDispatch
  rw [hst]

lemma stateDispatch_back_off (home : Point) (t1 : Bool) (gs : Snapshot)
    (pos : Point) (dir tn lt : ℝ) (sc : Bool) (s : MainState)
    (hst : s.state = .BACK_OFF) :
    stateDispatch home t1 gs pos dir tn lt sc s = state_back_off s := by
  unfold stateDispatch
  rw [hst]

/-- No branch other than `GET_APPLE` writes `closest_apple_id_old`. -/
lemma stateDispatch_preserves_id (home : Point) (t1 : Bool) (gs : Snapshot)
    (pos : Point) (dir tn lt : ℝ) (sc : Bool) (s s2 : MainState)
    (hst : s.state ≠ .GET_APPLE)
    (h : stateDispatch home t1 gs pos dir tn lt sc s = .ok s2) :
    s2.closest_apple_id_old = s.closest_apple_id_old := by
  cases hs : s.state
  case GET_APPLE => exact absurd hs hst
  case HOME =>
    rw [stateDispatch_home home t1 gs pos dir tn lt sc s hs] at h
    unfold state_home at h
    repeat' first | split at h | dsimp only at h
    all_goals obtain rfl := Except.ok.inj h
    all_goals rfl
  case GET_TURN =>
    rw [stateDispatch_get_turn home t1 gs pos dir tn lt sc s hs] at h
    unfold state_get_turn at h
    repeat' first | split at h | dsimp only at h
    all_goals first
      | (obtain rfl := Except.ok.inj h; rfl)
      | cases h
  case HOME_TURN =>
    rw [stateDispatch_home_turn home t1 gs pos dir tn lt sc s hs] at h
    unfold state_home_turn at h
    repeat' first | split at h | dsimp only at h
    all_goals first
      | (obtain rfl := Except.ok.inj h; rfl)
      | cases h
  case GET_STRAIGHT =>
    rw [stateDispatch_get_straight home t1 gs pos dir tn lt sc s hs] at h
    unfold state_get_straight at h
    repeat' first | split at h | dsimp only at h
    all_goals first
      | (obtain rfl := Except.ok.inj h; rfl)
      | cases h
  case HOME_STRAIGHT =>
    rw [stateDispatch_home_straight home t1 gs pos dir tn lt sc s hs] at h
    unfold state_home_straight at h
    repeat' first | split at h | dsimp only at h
    all_goals first
      | (obtain rfl := Except.ok.inj h; rfl)
      | cases h
  case BACK_OFF =>
    rw [stateDispatch_back_off home t1 gs pos dir tn lt sc s hs] at h
    unfold state_back_off at h
    obtain rfl := Except.ok.inj h
    rfl

/-- Any tick that is not a `GET_APPLE` evaluation preserves the
excluded-id memory. -/
lemma tick_preserves_id (home : Point) (t1 : Bool) (s : MainState)
    (inp : TickIn) (s2 : MainState) (out : Option MotorAct)
    (hnd : ¬ dispatchesApple s inp)
    (h : mainTick home t1 s inp = .ok (s2, out)) :
    s2.closest_apple_id_old = s.closest_apple_id_old := by
  rcases hf : inp.fetch with - | gs
  · rw [mainTick_fetch_err home t1 s inp hf] at h
    obtain ⟨rfl, -⟩ := Prod.mk.injEq .. ▸ Except.ok.inj h
    rfl
  · rcases hrf : robotFind gs with - | ⟨pos, dir⟩
    · rw [mainTick_not_alive home t1 s inp gs hf (Or.inl hrf)] at h
      obtain ⟨rfl, -⟩ := Prod.mk.injEq .. ▸ Except.ok.inj h
      rfl
    · by_cases hg : gs.gameOn = true
      · have hst : s.state ≠ .GET_APPLE := by
          intro hc
          exact hnd ⟨hc, gs, pos, dir, hf, hg, hrf⟩
        rw [mainTick_alive home t1 s inp gs pos dir hf hrf hg] at h
        split at h
        · cases h
        · rename_i s5 hs5
          obtain ⟨rfl, -⟩ := Prod.mk.injEq .. ▸ Except.ok.inj h
          exact stateDispatch_preserves_id home t1 gs pos dir inp.now
            (inp.now - s.t_old) _
            (pushHist { s with t_old := inp.now, state_old := some s.state })
            s5 hst hs5
      · rw [mainTick_not_alive home t1 s inp gs hf
          (Or.inr (Bool.not_eq_true _ ▸ hg))] at h
        obtain ⟨rfl, -⟩ := Prod.mk.injEq .. ▸ Except.ok.inj h
        rfl

/-- The excluded-id memory is constant along runs that avoid
`GET_APPLE`. -/
lemma reach_preserves_id (home : Point) (t1 : Bool) (x y : MainState)
    (h : ReachAvoidingApple home t1 x y) :
    y.closest_apple_id_old = x.closest_apple_id_old := by
  induction h with
  | refl s => rfl
  | step s sa sb inp out hnd ht hr ih =>
      rw [ih, tick_preserves_id home t1 s inp sa out hnd ht]

/-- C10 (confirmed): every `GET_APPLE` evaluation records the id of the
apple it just selected as the excluded id immediately, before any
pickup; and since no other tick writes that memory, two consecutive
SeekTarget selections never return an apple with the same id, even when
the first selection did not lead to a grab. -/
theorem C10_consecutive_selections_differ :
    (∀ (home : Point) (t1 : Bool) (s : MainState) (inp : TickIn)
      (gs : Snapshot) (pos : Point) (dir : ℝ) (a : Apple)
      (s2 : MainState) (out : Option MotorAct),
      s.state = .GET_APPLE → inp.fetch = some gs → gs.gameOn = true →
      robotFind gs = some (pos, dir) →
      get_closest_good_apple gs pos s.closest_apple_id_old = some a →
      mainTick home t1 s inp = .ok (s2, out) →
      s2.closest_apple_id_old = a.id)
    ∧ (∀ (home : Point) (t1 : Bool) (s1 s2 : MainState) (a1 a2 : Apple)
        (gs2 : Snapshot) (pos2 : Point),
      s1.closest_apple_id_old = a1.id →
      ReachAvoidingApple home t1 s1 s2 →
      s2.state = .GET_APPLE →
      get_closest_good_apple gs2 pos2 s2.closest_apple_id_old = some a2 →
      a2.id ≠ a1.id) := by
  constructor
  · intro home t1 s inp gs pos dir a s2 out hst hf hg hrf hsel h
    rw [mainTick_alive home t1 s inp gs pos dir hf hrf hg] at h
    split at h
    · cases h
    · rename_i s5 hs5
      obtain ⟨rfl, -⟩ := Prod.mk.injEq .. ▸ Except.ok.inj h
      rw [stateDispatch_get_apple home t1 gs pos dir inp.now
        (inp.now - s.t_old) _
        (pushHist { s with t_old := inp.now, state_old := some s.state })
        hst] at hs5
      exact state_get_apple_records gs pos dir
        (pushHist { s with t_old := inp.now, state_old := some s.state })
        a s5 hsel hs5
  · intro home t1 s1 s2 a1 a2 gs2 pos2 hid hreach hst2 hsel2
    have hpres := reach_preserves_id home t1 s1 s2 hreach
    have hne := sel_id_ne gs2 pos2 s2.closest_apple_id_old a2 hsel2
    rw [hpres, hid] at hne
    exact hne

/-- A snapshot with two good apples; the nearer one carries the
excluded id 1. -/
def snapTwoGood : Snapshot :=
  ⟨true, 100, [⟨35, ⟨0, 0⟩, 0⟩], [apple1, apple2]⟩

lemma sel_two_excl :
    get_closest_good_apple snapTwoGood ⟨0, 0⟩ 1 = some apple2 := by
  unfold get_closest_good_apple snapTwoGood
  dsimp only
  unfold closestGoodAux
  rw [if_neg (show ¬ (apple1.type = "appleGood" ∧ apple1.id ≠ 1) by
      simp [apple1])]
  unfold closestGoodAux
  rw [if_pos (⟨rfl, by decide⟩ : apple2.type = "appleGood" ∧ apple2.id ≠ 1),
    if_pos (EReal.coe_lt_top _)]
  rfl

/-! ### Claim C6: the near-target watchdog -/

/-- A regulator that has produced at least one sample, with its stored
time; `update` always succeeds on such a regulator when the elapsed time
is nonzero. -/
def pidReady (p : PIDState) (t : ℝ) : Prop :=
  (∃ v, p.value = some v) ∧ p.time = some t
    ∧ (∃ i, p.integral = some i) ∧ (∃ e, p.error = some e)

lemma update_ok_of_fresh (p : PIDState) (m tn : ℝ) (h : p.value = none) :
    ∃ u p2, PID.update p m tn = .ok (u, p2) ∧ pidReady p2 tn := by
  unfold PID.update
  rw [h]
  exact ⟨_, _, rfl, ⟨m, rfl⟩, rfl, ⟨0, rfl⟩, ⟨_, rfl⟩⟩

lemma update_ok_of_ready (p : PIDState) (m tn t : ℝ) (h : pidReady p t)
    (hne : tn - t ≠ 0) :
    ∃ u p2, PID.update p m tn = .ok (u, p2) ∧ pidReady p2 tn := by
  obtain ⟨⟨v, hv⟩, ht, ⟨i0, hi⟩, ⟨e0, he⟩⟩ := h
  unfold PID.update
  rw [hv, ht, hi, he]
  dsimp only
  cases hkd : p.kd
  · exact ⟨_, _, rfl, ⟨m, rfl⟩, rfl, ⟨_, rfl⟩, ⟨_, rfl⟩⟩
  · dsimp only
    rw [if_neg hne]
    exact ⟨_, _, rfl, ⟨m, rfl⟩, rfl, ⟨_, rfl⟩, ⟨_, rfl⟩⟩

lemma mainRun_append (home : Point) (t1 : Bool) (s : MainState)
    (l1 l2 : List TickIn) :
    mainRun home t1 s (l1 ++ l2) =
      match mainRun home t1 s l1 with
      | .error e => .error e
      | .ok s2 => mainRun home t1 s2 l2 := by
  induction l1 generalizing s with
  | nil => rfl
  | cons a l ih =>
      show (match mainTick home t1 s a with
        | Except.error e => Except.error e
        | Except.ok (s2, _) => mainRun home t1 s2 (l ++ l2)) = _
      rcases h : mainTick home t1 s a with e | ⟨s2, o⟩
      · simp only [mainRun, h]
      · simp only [mainRun, h, ih]

/-- The inputs of `n` ticks with wall-clock readings `now` and
snapshots `snap`. -/
def ticksOf (snap : ℕ → Snapshot) (now : ℕ → ℝ) (n : ℕ) : List TickIn :=
  (List.range n).map fun j => ⟨now j, some (snap j)⟩

lemma ticksOf_succ (snap : ℕ → Snapshot) (now : ℕ → ℝ) (j : ℕ) :
    ticksOf snap now (j + 1) =
      ticksOf snap now j ++ [⟨now j, some (snap j)⟩] := by
  simp [ticksOf, List.range_succ]

/-- The contents of `robot_dist_hist` after the pushes of ticks
`0, …, j` of a straight-line run: tick 0 pushes the pre-run
`target_dist` value `d0`, tick `j + 1` pushes the distance `d j`
computed on tick `j`. -/
def histSeq (init : List ℝ) (d0 : ℝ) (d : ℕ → ℝ) : ℕ → List ℝ
  | 0 => init.tail ++ [d0]
  | j + 1 => (histSeq init d0 d j).tail ++ [d j]

/-- One near-target, not-arrived `GET_STRAIGHT` tick: with `T0` the
armed countdown (the full duration on entry or on a rising edge, the
stored countdown otherwise), the branch decrements it by the loop time
and either fires the watchdog (`T0 - lt < 0`, transition to `GET_TURN`)
or keeps driving. -/
lemma straight_tick_near (pos : Point) (dir tn lt : ℝ) (sc : Bool)
    (S : MainState) (tgt : Point) (T0 : ℝ)
    (htgt : S.target = some tgt)
    (harr : S.robot_dist_hist.countP (fun x => decide (x > DIST_EPS)) ≠ 0)
    (hnear : get_distance pos tgt < DIST_NEAR)
    (hT0a : S.robot_near_target_old = false → T0 = TIMER_NEAR_TARGET)
    (hT0b : S.robot_near_target_old = true →
      (if sc = true then TIMER_NEAR_TARGET else S.timer_near_target) = T0) :
    (T0 - lt < 0 →
      state_get_straight pos dir tn lt sc S =
        .ok { S with
          target_dist := get_distance pos tgt,
          target_angle := get_angle pos dir tgt,
          PID_frwd_base := if sc = true then
              PID.reset S.PID_frwd_base none none none none none
            else S.PID_frwd_base,
          PID_frwd_turn := if sc = true then
              PID.reset S.PID_frwd_turn none none none none none
            else S.PID_frwd_turn,
          timer_near_target := T0 - lt,
          robot_near_target_old := true,
          speed_right := 0,
          speed_left := 0,
          state := .GET_TURN })
    ∧ (¬ (T0 - lt < 0) → ∀ (u1 u2 : ℝ) (pft2 pfb2 : PIDState),
      PID.update (if sc = true then
          PID.reset S.PID_frwd_turn none none none none none
        else S.PID_frwd_turn) (get_angle pos dir tgt) tn = .ok (u1, pft2) →
      PID.update (if sc = true then
          PID.reset S.PID_frwd_base none none none none none
        else S.PID_frwd_base) (get_distance pos tgt) tn = .ok (u2, pfb2) →
      state_get_straight pos dir tn lt sc S =
        .ok { S with
          target_dist := get_distance pos tgt,
          target_angle := get_angle pos dir tgt,
          PID_frwd_base := pfb2,
          PID_frwd_turn := pft2,
          timer_near_target := T0 - lt,
          robot_near_target_old := true,
          speed_right := -(min (max u2 (-SPEED_BASE_MAX)) SPEED_BASE_MAX) - u1,
          speed_left := -(min (max u2 (-SPEED_BASE_MAX)) SPEED_BASE_MAX) + u1 }) := by
  have hdec : decide (get_distance pos tgt < DIST_NEAR) = true :=
    decide_eq_true hnear
  unfold state_get_straight
  rw [htgt]
  dsimp only
  rw [hdec]
  cases hb : S.robot_near_target_old
  · -- rising edge: the watchdog is re-armed to the full duration
    rw [if_pos (⟨by simp, rfl⟩ : ¬ (false = true) ∧ true = true),
      if_pos rfl, if_neg harr, ← hT0a hb]
    constructor
    · intro hfire
      rw [if_pos hfire]
    · intro hnof u1 u2 pft2 pfb2 hu1 hu2
      rw [if_neg hnof, hu1]
      dsimp only
      rw [hu2]
  · -- the near flag was already set: the countdown keeps running
    rw [if_neg (by simp : ¬ (¬ (true = true) ∧ true = true)),
      if_pos rfl, if_neg harr, hT0b hb]
    constructor
    · intro hfire
      rw [if_pos hfire]
    · intro hnof u1 u2 pft2 pfb2 hu1 hu2
      rw [if_neg hnof, hu1]
      dsimp only
      rw [hu2]

/-- One far-from-target, not-arrived, non-entry `GET_STRAIGHT` tick:
the countdown is NOT decremented (the near flag is down) and the
rising-edge flag is cleared. -/
lemma straight_tick_far (pos : Point) (dir tn lt : ℝ) (S : MainState)
    (tgt : Point)
    (htgt : S.target = some tgt)
    (harr : S.robot_dist_hist.countP (fun x => decide (x > DIST_EPS)) ≠ 0)
    (hfar : ¬ (get_distance pos tgt < DIST_NEAR))
    (hnof : ¬ (S.timer_near_target < 0)) :
    ∀ (u1 u2 : ℝ) (pft2 pfb2 : PIDState),
      PID.update S.PID_frwd_turn (get_angle pos dir tgt) tn =
        .ok (u1, pft2) →
      PID.update S.PID_frwd_base (get_distance pos tgt) tn =
        .ok (u2, pfb2) →
      state_get_straight pos dir tn lt false S =
        .ok { S with
          target_dist := get_distance pos tgt,
          target_angle := get_angle pos dir tgt,
          PID_frwd_base := pfb2,
          PID_frwd_turn := pft2,
          timer_near_target := S.timer_near_target,
          robot_near_target_old := false,
          speed_right := -(min (max u2 (-SPEED_BASE_MAX)) SPEED_BASE_MAX) - u1,
          speed_left := -(min (max u2 (-SPEED_BASE_MAX)) SPEED_BASE_MAX) + u1 } := by
  intro u1 u2 pft2 pfb2 hu1 hu2
  have hdec : decide (get_distance pos tgt < DIST_NEAR) = false :=
    decide_eq_false hfar
  unfold state_get_straight
  rw [htgt]
  dsimp only
  rw [hdec]
  rw [if_neg (by simp : ¬ (false = true)),
    if_neg (by simp : ¬ (false = true)),
    if_neg (by simp : ¬ (false = true)),
    if_neg (by simp : ¬ (¬ (S.robot_near_target_old = true) ∧ false = true)),
    if_neg (by simp : ¬ (false = true)),
    if_neg harr, if_neg hnof, hu1]
  dsimp only
  rw [hu2]

/-- A full tick reduces to its dispatch result once the fetch, the
robot lookup and the game switch are pinned down. -/
lemma mainTick_ok_of_dispatch (home : Point) (t1 : Bool) (s : MainState)
    (inp : TickIn) (gs : Snapshot) (robot_pos : Point) (robot_dir : ℝ)
    (R : MainState) (hf : inp.fetch = some gs)
    (hr : robotFind gs = some (robot_pos, robot_dir))
    (hg : gs.gameOn = true)
    (hd : stateDispatch home t1 gs robot_pos robot_dir inp.now
      (inp.now - s.t_old) (decide (s.state_old ≠ some s.state))
      (pushHist { s with t_old := inp.now, state_old := some s.state }) =
      .ok R) :
    mainTick home t1 s inp = .ok (speedClamp R) := by
  rw [mainTick_alive home t1 s inp gs robot_pos robot_dir hf hr hg, hd]

lemma mainRun_cons_ok (home : Point) (t1 : Bool) (s s2 : MainState)
    (inp : TickIn) (out : Option MotorAct) (rest : List TickIn)
    (h : mainTick home t1 s inp = .ok (s2, out)) :
    mainRun home t1 s (inp :: rest) = mainRun home t1 s2 rest := by
  show (match mainTick home t1 s inp with
    | Except.error e => Except.error e
    | Except.ok (s2, _) => mainRun home t1 s2 rest) = _
  rw [h]

/-- One near-target, not-arrived, not-home `HOME_STRAIGHT` tick, the
mirror of `straight_tick_near` with the apple regulators, the home-zone
test and the creep-in multiplier `M0`. -/
lemma home_straight_tick_near (t1 : Bool) (pos : Point) (dir tn lt : ℝ)
    (sc : Bool) (S : MainState) (tgt : Point) (T0 M0 : ℝ)
    (htgt : S.target = some tgt)
    (harr : S.robot_dist_hist.countP (fun x => decide (x > DIST_EPS)) ≠ 0)
    (hdoma : (if t1 = true then in_team_one pos else in_team_two pos)
      = false)
    (hnear : get_distance pos tgt < DIST_NEAR)
    (hT0a : S.robot_near_target_old = false → T0 = TIMER_NEAR_TARGET)
    (hT0b : S.robot_near_target_old = true →
      (if sc = true then TIMER_NEAR_TARGET else S.timer_near_target) = T0)
    (hM0a : S.robot_near_target_old = false → M0 = (0.1 : ℝ))
    (hM0b : S.robot_near_target_old = true →
      (if sc = true then (1 : ℝ)
        else S.pid_frwd_base_apple_multiplier) = M0) :
    (T0 - lt < 0 →
      state_home_straight t1 pos dir tn lt sc S =
        .ok { S with
          target_dist := get_distance pos tgt,
          target_angle := get_angle pos dir tgt,
          PID_frwd_base_apple := if sc = true then
              PID.reset S.PID_frwd_base_apple none none none none none
            else S.PID_frwd_base_apple,
          PID_frwd_turn_apple := if sc = true then
              PID.reset S.PID_frwd_turn_apple none none none none none
            else S.PID_frwd_turn_apple,
          timer_near_target := T0 - lt,
          pid_frwd_base_apple_multiplier := M0,
          robot_near_target_old := true,
          speed_right := 0,
          speed_left := 0,
          state := .HOME_TURN })
    ∧ (¬ (T0 - lt < 0) → ∀ (u1 u2 : ℝ) (pft2 pfb2 : PIDState),
      PID.update (if sc = true then
          PID.reset S.PID_frwd_turn_apple none none none none none
        else S.PID_frwd_turn_apple) (get_angle pos dir tgt) tn =
        .ok (u1, pft2) →
      PID.update (if sc = true then
          PID.reset S.PID_frwd_base_apple none none none none none
        else S.PID_frwd_base_apple) (get_distance pos tgt) tn =
        .ok (u2, pfb2) →
      state_home_straight t1 pos dir tn lt sc S =
        .ok { S with
          target_dist := get_distance pos tgt,
          target_angle := get_angle pos dir tgt,
          PID_frwd_base_apple := pfb2,
          PID_frwd_turn_apple := pft2,
          timer_near_target := T0 - lt,
          pid_frwd_base_apple_multiplier := M0,
          robot_near_target_old := true,
          speed_right :=
            -(min (max (u2 * M0) (-SPEED_BASE_MAX)) SPEED_BASE_MAX)
              - u1 * M0,
          speed_left :=
            -(min (max (u2 * M0) (-SPEED_BASE_MAX)) SPEED_BASE_MAX)
              + u1 * M0 }) := by
  have hdec : decide (get_distance pos tgt < DIST_NEAR) = true :=
    decide_eq_true hnear
  unfold state_home_straight
  rw [htgt]
  dsimp only
  rw [hdec, hdoma]
  cases hb : S.robot_near_target_old
  · -- rising edge: full duration and creep-in multiplier
    rw [if_pos (⟨by simp, rfl⟩ : ¬ (false = true) ∧ true = true),
      if_pos (⟨by simp, rfl⟩ : ¬ (false = true) ∧ true = true),
      if_pos rfl,
      if_neg (show ¬ ((List.countP (fun x => decide (x > DIST_EPS))
          S.robot_dist_hist = 0) ∨ false = true) by
        intro hc
        rcases hc with hc | hc
        · exact harr hc
        · simp at hc),
      ← hT0a hb, ← hM0a hb]
    constructor
    · intro hfire
      rw [if_pos hfire]
    · intro hnof u1 u2 pft2 pfb2 hu1 hu2
      rw [if_neg hnof, hu1]
      dsimp only
      rw [hu2]
  · -- the near flag was already set
    rw [if_neg (by simp : ¬ (¬ (true = true) ∧ true = true)),
      if_neg (by simp : ¬ (¬ (true = true) ∧ true = true)),
      if_pos rfl,
      if_neg (show ¬ ((List.countP (fun x => decide (x > DIST_EPS))
          S.robot_dist_hist = 0) ∨ false = true) by
        intro hc
        rcases hc with hc | hc
        · exact harr hc
        · simp at hc),
      hT0b hb, hM0b hb]
    constructor
    · intro hfire
      rw [if_pos hfire]
    · intro hnof u1 u2 pft2 pfb2 hu1 hu2
      rw [if_neg hnof, hu1]
      dsimp only
      rw [hu2]

/-- The run-level watchdog property of `GET_STRAIGHT`: entering the
state and staying near the target without ever meeting the distance
arrival tolerance, the machine stays in `GET_STRAIGHT` with the
countdown equal to the full duration minus the elapsed near time, and
transitions to `GET_TURN` exactly on the tick whose cumulative elapsed
time first exceeds the duration. -/
lemma watchdog_run_get (home : Point) (t1 : Bool) (s : MainState)
    (tgt : Point) (snap : ℕ → Snapshot) (pos : ℕ → Point) (dir : ℕ → ℝ)
    (now : ℕ → ℝ) (k : ℕ)
    (h_state : s.state = .GET_STRAIGHT)
    (h_entry : s.state_old ≠ some .GET_STRAIGHT)
    (h_tgt : s.target = some tgt)
    (h_on : ∀ j, j ≤ k → (snap j).gameOn = true)
    (h_rob : ∀ j, j ≤ k → robotFind (snap j) = some (pos j, dir j))
    (h_near : ∀ j, j ≤ k → get_distance (pos j) tgt < DIST_NEAR)
    (h_arr : ∀ j, j ≤ k → (histSeq s.robot_dist_hist s.target_dist
        (fun i => get_distance (pos i) tgt) j).countP
        (fun x => decide (x > DIST_EPS)) ≠ 0)
    (h_mono : ∀ j, j < k → now j < now (j + 1))
    (h_before : ∀ j, j < k → now j - s.t_old ≤ TIMER_NEAR_TARGET)
    (h_at : TIMER_NEAR_TARGET < now k - s.t_old) :
    (∀ j, j < k →
      ∃ sj, mainRun home t1 s (ticksOf snap now (j + 1)) = .ok sj
        ∧ sj.state = .GET_STRAIGHT
        ∧ sj.timer_near_target = TIMER_NEAR_TARGET - (now j - s.t_old))
    ∧ ∃ sk, mainRun home t1 s (ticksOf snap now (k + 1)) = .ok sk
        ∧ sk.state = .GET_TURN := by
  have hsc0 : decide (s.state_old ≠ some s.state) = true := by
    rw [h_state]
    exact decide_eq_true h_entry
  have hticks1 : ticksOf snap now 1 = [⟨now 0, some (snap 0)⟩] := by
    rw [ticksOf, List.range_succ]
    simp
  -- the invariant after tick j, for every j < k
  have aux : ∀ j, j < k →
      ∃ sj, mainRun home t1 s (ticksOf snap now (j + 1)) = .ok sj
        ∧ sj.state = .GET_STRAIGHT
        ∧ sj.state_old = some .GET_STRAIGHT
        ∧ sj.target = some tgt
        ∧ sj.t_old = now j
        ∧ sj.timer_near_target = TIMER_NEAR_TARGET - (now j - s.t_old)
        ∧ sj.robot_near_target_old = true
        ∧ sj.robot_dist_hist = histSeq s.robot_dist_hist s.target_dist
            (fun i => get_distance (pos i) tgt) j
        ∧ sj.target_dist = get_distance (pos j) tgt
        ∧ pidReady sj.PID_frwd_turn (now j)
        ∧ pidReady sj.PID_frwd_base (now j) := by
    intro j
    induction j with
    | zero =>
        intro hk
        obtain ⟨u1, pft2, hu1, hru1⟩ := update_ok_of_fresh
          (PID.reset s.PID_frwd_turn none none none none none)
          (get_angle (pos 0) (dir 0) tgt) (now 0) rfl
        obtain ⟨u2, pfb2, hu2, hru2⟩ := update_ok_of_fresh
          (PID.reset s.PID_frwd_base none none none none none)
          (get_distance (pos 0) tgt) (now 0) rfl
        have hnof0 : ¬ (TIMER_NEAR_TARGET - (now 0 - s.t_old) < 0) := by
          have hb := h_before 0 hk
          intro hc
          linarith
        have hstep := (straight_tick_near (pos 0) (dir 0) (now 0)
            (now 0 - s.t_old) true
            (pushHist { s with t_old := now 0, state_old := some s.state })
            tgt TIMER_NEAR_TARGET h_tgt (h_arr 0 (Nat.zero_le k))
            (h_near 0 (Nat.zero_le k)) (fun _ => rfl)
            (fun _ => by rw [if_pos rfl])).2 hnof0
          u1 u2 pft2 pfb2
          (by rw [if_pos rfl]; exact hu1)
          (by rw [if_pos rfl]; exact hu2)
        obtain ⟨R, hstepR, hRst, hRso, hRtgt, hRtold, hRtimer, hRold,
          hRhist, hRdist, hRpft, hRpfb⟩ :
          ∃ R, state_get_straight (pos 0) (dir 0) (now 0) (now 0 - s.t_old)
              true (pushHist { s with t_old := now 0, state_old := some s.state }) = .ok R
            ∧ R.state = s.state
            ∧ R.state_old = some s.state
            ∧ R.target = s.target
            ∧ R.t_old = now 0
            ∧ R.timer_near_target = TIMER_NEAR_TARGET - (now 0 - s.t_old)
            ∧ R.robot_near_target_old = true
            ∧ R.robot_dist_hist = s.robot_dist_hist.tail ++ [s.target_dist]
            ∧ R.target_dist = get_distance (pos 0) tgt
            ∧ R.PID_frwd_turn = pft2
            ∧ R.PID_frwd_base = pfb2 :=
          ⟨_, hstep, rfl, rfl, rfl, rfl, rfl, rfl, rfl, rfl, rfl, rfl⟩
        have htickR : mainTick home t1 s ⟨now 0, some (snap 0)⟩ =
            .ok (speedClamp R) :=
          mainTick_ok_of_dispatch home t1 s ⟨now 0, some (snap 0)⟩ (snap 0)
            (pos 0) (dir 0) R rfl (h_rob 0 (Nat.zero_le k))
            (h_on 0 (Nat.zero_le k)) (by
              show stateDispatch home t1 (snap 0) (pos 0) (dir 0) (now 0)
                (now 0 - s.t_old) (decide (s.state_old ≠ some s.state))
                (pushHist { s with t_old := now 0, state_old := some s.state }) = .ok R
              rw [hsc0, stateDispatch_get_straight home t1 (snap 0) (pos 0)
                (dir 0) (now 0) (now 0 - s.t_old) true
                (pushHist { s with t_old := now 0, state_old := some s.state }) h_state]
              exact hstepR)
        have hrun : mainRun home t1 s (ticksOf snap now (0 + 1)) =
            .ok (speedClamp R).1 := by
          show mainRun home t1 s [⟨now 0, some (snap 0)⟩] = _
          rw [mainRun_cons_ok home t1 s (speedClamp R).1
            ⟨now 0, some (snap 0)⟩ (speedClamp R).2 [] htickR]
          rfl
        refine ⟨(speedClamp R).1, hrun, ?_, ?_, ?_, ?_, ?_, ?_, ?_, ?_,
          ?_, ?_⟩
        · show R.state = _
          rw [hRst, h_state]
        · show R.state_old = _
          rw [hRso, h_state]
        · show R.target = _
          rw [hRtgt, h_tgt]
        · exact hRtold
        · exact hRtimer
        · exact hRold
        · show R.robot_dist_hist = _
          rw [hRhist]
          rfl
        · exact hRdist
        · show pidReady R.PID_frwd_turn (now 0)
          rw [hRpft]
          exact hru1
        · show pidReady R.PID_frwd_base (now 0)
          rw [hRpfb]
          exact hru2
    | succ j ihj =>
        intro hk
        have hjk : j < k := Nat.lt_of_succ_lt hk
        obtain ⟨sj, hrunj, hstj, hsoj, htgtj, htoldj, htimerj, holdj,
          hhistj, hdistj, hreadyT, hreadyB⟩ := ihj hjk
        have hscj : decide (sj.state_old ≠ some sj.state) = false := by
          rw [hsoj, hstj]
          exact decide_eq_false (by simp)
        have hneq : now (j + 1) - now j ≠ 0 :=
          sub_ne_zero.mpr (ne_of_gt (h_mono j hjk))
        obtain ⟨u1, pft2, hu1, hru1⟩ := update_ok_of_ready sj.PID_frwd_turn
          (get_angle (pos (j + 1)) (dir (j + 1)) tgt) (now (j + 1)) (now j)
          hreadyT hneq
        obtain ⟨u2, pfb2, hu2, hru2⟩ := update_ok_of_ready sj.PID_frwd_base
          (get_distance (pos (j + 1)) tgt) (now (j + 1)) (now j)
          hreadyB hneq
        have hnof : ¬ (TIMER_NEAR_TARGET - (now j - s.t_old)
            - (now (j + 1) - sj.t_old) < 0) := by
          rw [htoldj]
          have hb := h_before (j + 1) hk
          intro hc
          linarith
        have harr2 : (pushHist { sj with t_old := now (j + 1), state_old := some sj.state }).robot_dist_hist.countP
            (fun x => decide (x > DIST_EPS)) ≠ 0 := by
          show (sj.robot_dist_hist.tail ++ [sj.target_dist]).countP
            (fun x => decide (x > DIST_EPS)) ≠ 0
          rw [hhistj, hdistj]
          exact h_arr (j + 1) (le_of_lt hk)
        have hstep := (straight_tick_near (pos (j + 1)) (dir (j + 1))
            (now (j + 1)) (now (j + 1) - sj.t_old) false
            (pushHist { sj with t_old := now (j + 1), state_old := some sj.state })
            tgt (TIMER_NEAR_TARGET - (now j - s.t_old)) htgtj harr2
            (h_near (j + 1) (le_of_lt hk))
            (fun hc => absurd (holdj.symm.trans hc) (by simp))
            (fun _ => by
              rw [if_neg (by simp : ¬ (false = true))]
              exact htimerj)).2 hnof
          u1 u2 pft2 pfb2
          (by rw [if_neg (by simp : ¬ (false = true))]; exact hu1)
          (by rw [if_neg (by simp : ¬ (false = true))]; exact hu2)
        obtain ⟨R, hstepR, hRst, hRso, hRtgt, hRtold, hRtimer, hRold,
          hRhist, hRdist, hRpft, hRpfb⟩ :
          ∃ R, state_get_straight (pos (j + 1)) (dir (j + 1)) (now (j + 1))
              (now (j + 1) - sj.t_old) false
              (pushHist { sj with t_old := now (j + 1), state_old := some sj.state }) = .ok R
            ∧ R.state = sj.state
            ∧ R.state_old = some sj.state
            ∧ R.target = sj.target
            ∧ R.t_old = now (j + 1)
            ∧ R.timer_near_target = TIMER_NEAR_TARGET - (now j - s.t_old)
                - (now (j + 1) - sj.t_old)
            ∧ R.robot_near_target_old = true
            ∧ R.robot_dist_hist = sj.robot_dist_hist.tail
                ++ [sj.target_dist]
            ∧ R.target_dist = get_distance (pos (j + 1)) tgt
            ∧ R.PID_frwd_turn = pft2
            ∧ R.PID_frwd_base = pfb2 :=
          ⟨_, hstep, rfl, rfl, rfl, rfl, rfl, rfl, rfl, rfl, rfl, rfl⟩
        have htickR : mainTick home t1 sj
            ⟨now (j + 1), some (snap (j + 1))⟩ = .ok (speedClamp R) :=
          mainTick_ok_of_dispatch home t1 sj
            ⟨now (j + 1), some (snap (j + 1))⟩ (snap (j + 1)) (pos (j + 1))
            (dir (j + 1)) R rfl (h_rob (j + 1) (le_of_lt hk))
            (h_on (j + 1) (le_of_lt hk)) (by
              show stateDispatch home t1 (snap (j + 1)) (pos (j + 1))
                (dir (j + 1)) (now (j + 1)) (now (j + 1) - sj.t_old)
                (decide (sj.state_old ≠ some sj.state))
                (pushHist { sj with t_old := now (j + 1), state_old := some sj.state }) = .ok R
              rw [hscj, stateDispatch_get_straight home t1 (snap (j + 1))
                (pos (j + 1)) (dir (j + 1)) (now (j + 1))
                (now (j + 1) - sj.t_old) false
                (pushHist { sj with t_old := now (j + 1), state_old := some sj.state }) hstj]
              exact hstepR)
        have hrun2 : mainRun home t1 s (ticksOf snap now (j + 1 + 1)) =
            .ok (speedClamp R).1 := by
          rw [ticksOf_succ, mainRun_append, hrunj]
          show mainRun home t1 sj [⟨now (j + 1), some (snap (j + 1))⟩] = _
          rw [mainRun_cons_ok home t1 sj (speedClamp R).1
            ⟨now (j + 1), some (snap (j + 1))⟩ (speedClamp R).2 [] htickR]
          rfl
        refine ⟨(speedClamp R).1, hrun2, ?_, ?_, ?_, ?_, ?_, ?_, ?_, ?_,
          ?_, ?_⟩
        · show R.state = _
          rw [hRst, hstj]
        · show R.state_old = _
          rw [hRso, hstj]
        · show R.target = _
          rw [hRtgt, htgtj]
        · exact hRtold
        · show R.timer_near_target = _
          rw [hRtimer, htoldj]
          ring
        · exact hRold
        · show R.robot_dist_hist = _
          rw [hRhist, hhistj, hdistj]
          rfl
        · exact hRdist
        · show pidReady R.PID_frwd_turn (now (j + 1))
          rw [hRpft]
          exact hru1
        · show pidReady R.PID_frwd_base (now (j + 1))
          rw [hRpfb]
          exact hru2
  refine ⟨fun j hj => ?_, ?_⟩
  · obtain ⟨sj, hrunj, hstj, -, -, -, htimerj, -⟩ := aux j hj
    exact ⟨sj, hrunj, hstj, htimerj⟩
  · cases k with
    | zero =>
        have hfire : TIMER_NEAR_TARGET - (now 0 - s.t_old) < 0 := by
          have hb := h_at
          linarith
        have hstep := (straight_tick_near (pos 0) (dir 0) (now 0)
            (now 0 - s.t_old) true
            (pushHist { s with t_old := now 0, state_old := some s.state })
            tgt TIMER_NEAR_TARGET h_tgt (h_arr 0 (le_refl 0))
            (h_near 0 (le_refl 0)) (fun _ => rfl)
            (fun _ => by rw [if_pos rfl])).1 hfire
        obtain ⟨R, hstepR, hRst⟩ :
          ∃ R, state_get_straight (pos 0) (dir 0) (now 0) (now 0 - s.t_old)
              true (pushHist { s with t_old := now 0, state_old := some s.state }) = .ok R
            ∧ R.state = State.GET_TURN := ⟨_, hstep, rfl⟩
        have htickR : mainTick home t1 s ⟨now 0, some (snap 0)⟩ =
            .ok (speedClamp R) :=
          mainTick_ok_of_dispatch home t1 s ⟨now 0, some (snap 0)⟩ (snap 0)
            (pos 0) (dir 0) R rfl (h_rob 0 (le_refl 0)) (h_on 0 (le_refl 0))
            (by
              show stateDispatch home t1 (snap 0) (pos 0) (dir 0) (now 0)
                (now 0 - s.t_old) (decide (s.state_old ≠ some s.state))
                (pushHist { s with t_old := now 0, state_old := some s.state }) = .ok R
              rw [hsc0, stateDispatch_get_straight home t1 (snap 0) (pos 0)
                (dir 0) (now 0) (now 0 - s.t_old) true
                (pushHist { s with t_old := now 0, state_old := some s.state }) h_state]
              exact hstepR)
        refine ⟨(speedClamp R).1, ?_, hRst⟩
        show mainRun home t1 s [⟨now 0, some (snap 0)⟩] = _
        rw [mainRun_cons_ok home t1 s (speedClamp R).1
          ⟨now 0, some (snap 0)⟩ (speedClamp R).2 [] htickR]
        rfl
    | succ j =>
        have hjk : j < j + 1 := Nat.lt_succ_self j
        obtain ⟨sj, hrunj, hstj, hsoj, htgtj, htoldj, htimerj, holdj,
          hhistj, hdistj, hreadyT, hreadyB⟩ := aux j hjk
        have hscj : decide (sj.state_old ≠ some sj.state) = false := by
          rw [hsoj, hstj]
          exact decide_eq_false (by simp)
        have hfire : TIMER_NEAR_TARGET - (now j - s.t_old)
            - (now (j + 1) - sj.t_old) < 0 := by
          rw [htoldj]
          have hb := h_at
          linarith
        have harr2 : (pushHist { sj with t_old := now (j + 1), state_old := some sj.state }).robot_dist_hist.countP
            (fun x => decide (x > DIST_EPS)) ≠ 0 := by
          show (sj.robot_dist_hist.tail ++ [sj.target_dist]).countP
            (fun x => decide (x > DIST_EPS)) ≠ 0
          rw [hhistj, hdistj]
          exact h_arr (j + 1) (le_refl (j + 1))
        have hstep := (straight_tick_near (pos (j + 1)) (dir (j + 1))
            (now (j + 1)) (now (j + 1) - sj.t_old) false
            (pushHist { sj with t_old := now (j + 1), state_old := some sj.state })
            tgt (TIMER_NEAR_TARGET - (now j - s.t_old)) htgtj harr2
            (h_near (j + 1) (le_refl (j + 1)))
            (fun hc => absurd (holdj.symm.trans hc) (by simp))
            (fun _ => by
              rw [if_neg (by simp : ¬ (false = true))]
              exact htimerj)).1 hfire
        obtain ⟨R, hstepR, hRst⟩ :
          ∃ R, state_get_straight (pos (j + 1)) (dir (j + 1)) (now (j + 1))
              (now (j + 1) - sj.t_old) false
              (pushHist { sj with t_old := now (j + 1), state_old := some sj.state }) = .ok R
            ∧ R.state = State.GET_TURN := ⟨_, hstep, rfl⟩
        have htickR : mainTick home t1 sj
            ⟨now (j + 1), some (snap (j + 1))⟩ = .ok (speedClamp R) :=
          mainTick_ok_of_dispatch home t1 sj
            ⟨now (j + 1), some (snap (j + 1))⟩ (snap (j + 1)) (pos (j + 1))
            (dir (j + 1)) R rfl (h_rob (j + 1) (le_refl (j + 1)))
            (h_on (j + 1) (le_refl (j + 1))) (by
              show stateDispatch home t1 (snap (j + 1)) (pos (j + 1))
                (dir (j + 1)) (now (j + 1)) (now (j + 1) - sj.t_old)
                (decide (sj.state_old ≠ some sj.state))
                (pushHist { sj with t_old := now (j + 1), state_old := some sj.state }) = .ok R
              rw [hscj, stateDispatch_get_straight home t1 (snap (j + 1))
                (pos (j + 1)) (dir (j + 1)) (now (j + 1))
                (now (j + 1) - sj.t_old) false
                (pushHist { sj with t_old := now (j + 1), state_old := some sj.state }) hstj]
              exact hstepR)
        refine ⟨(speedClamp R).1, ?_, hRst⟩
        rw [ticksOf_succ, mainRun_append, hrunj]
        show mainRun home t1 sj [⟨now (j + 1), some (snap (j + 1))⟩] = _
        rw [mainRun_cons_ok home t1 sj (speedClamp R).1
          ⟨now (j + 1), some (snap (j + 1))⟩ (speedClamp R).2 [] htickR]
        rfl

/-- The run-level watchdog property of `HOME_STRAIGHT`, mirror of
`watchdog_run_get`: staying near the home point, outside the home zone
and short of the arrival tolerance, the machine stays in
`HOME_STRAIGHT` and transitions to `HOME_TURN` exactly on the tick
whose cumulative near time first exceeds the duration. -/
lemma watchdog_run_home (home : Point) (t1 : Bool) (s : MainState)
    (tgt : Point) (snap : ℕ → Snapshot) (pos : ℕ → Point) (dir : ℕ → ℝ)
    (now : ℕ → ℝ) (k : ℕ)
    (h_state : s.state = .HOME_STRAIGHT)
    (h_entry : s.state_old ≠ some .HOME_STRAIGHT)
    (h_tgt : s.target = some tgt)
    (h_on : ∀ j, j ≤ k → (snap j).gameOn = true)
    (h_rob : ∀ j, j ≤ k → robotFind (snap j) = some (pos j, dir j))
    (h_near : ∀ j, j ≤ k → get_distance (pos j) tgt < DIST_NEAR)
    (h_doma : ∀ j, j ≤ k →
      (if t1 = true then in_team_one (pos j) else in_team_two (pos j))
        = false)
    (h_arr : ∀ j, j ≤ k → (histSeq s.robot_dist_hist s.target_dist
        (fun i => get_distance (pos i) tgt) j).countP
        (fun x => decide (x > DIST_EPS)) ≠ 0)
    (h_mono : ∀ j, j < k → now j < now (j + 1))
    (h_before : ∀ j, j < k → now j - s.t_old ≤ TIMER_NEAR_TARGET)
    (h_at : TIMER_NEAR_TARGET < now k - s.t_old) :
    (∀ j, j < k →
      ∃ sj, mainRun home t1 s (ticksOf snap now (j + 1)) = .ok sj
        ∧ sj.state = .HOME_STRAIGHT
        ∧ sj.timer_near_target = TIMER_NEAR_TARGET - (now j - s.t_old))
    ∧ ∃ sk, mainRun home t1 s (ticksOf snap now (k + 1)) = .ok sk
        ∧ sk.state = .HOME_TURN := by
  have hsc0 : decide (s.state_old ≠ some s.state) = true := by
    rw [h_state]
    exact decide_eq_true h_entry
  have aux : ∀ j, j < k →
      ∃ sj, mainRun home t1 s (ticksOf snap now (j + 1)) = .ok sj
        ∧ sj.state = .HOME_STRAIGHT
        ∧ sj.state_old = some .HOME_STRAIGHT
        ∧ sj.target = some tgt
        ∧ sj.t_old = now j
        ∧ sj.timer_near_target = TIMER_NEAR_TARGET - (now j - s.t_old)
        ∧ sj.robot_near_target_old = true
        ∧ sj.robot_dist_hist = histSeq s.robot_dist_hist s.target_dist
            (fun i => get_distance (pos i) tgt) j
        ∧ sj.target_dist = get_distance (pos j) tgt
        ∧ pidReady sj.PID_frwd_turn_apple (now j)
        ∧ pidReady sj.PID_frwd_base_apple (now j) := by
    intro j
    induction j with
    | zero =>
        intro hk
        obtain ⟨u1, pft2, hu1, hru1⟩ := update_ok_of_fresh
          (PID.reset s.PID_frwd_turn_apple none none none none none)
          (get_angle (pos 0) (dir 0) tgt) (now 0) rfl
        obtain ⟨u2, pfb2, hu2, hru2⟩ := update_ok_of_fresh
          (PID.reset s.PID_frwd_base_apple none none none none none)
          (get_distance (pos 0) tgt) (now 0) rfl
        have hnof0 : ¬ (TIMER_NEAR_TARGET - (now 0 - s.t_old) < 0) := by
          have hb := h_before 0 hk
          intro hc
          linarith
        have hstep := (home_straight_tick_near t1 (pos 0) (dir 0) (now 0)
            (now 0 - s.t_old) true
            (pushHist { s with t_old := now 0, state_old := some s.state })
            tgt TIMER_NEAR_TARGET
            (if s.robot_near_target_old = true then (1 : ℝ) else 0.1)
            h_tgt (h_arr 0 (Nat.zero_le k)) (h_doma 0 (Nat.zero_le k))
            (h_near 0 (Nat.zero_le k)) (fun _ => rfl)
            (fun _ => by rw [if_pos rfl])
            (fun hc => by
              have hc2 : s.robot_near_target_old = false := hc
              rw [hc2, if_neg (by simp : ¬ (false = true))])
            (fun hc => by
              have hc2 : s.robot_near_target_old = true := hc
              rw [if_pos rfl, hc2, if_pos rfl])).2 hnof0
          u1 u2 pft2 pfb2
          (by rw [if_pos rfl]; exact hu1)
          (by rw [if_pos rfl]; exact hu2)
        obtain ⟨R, hstepR, hRst, hRso, hRtgt, hRtold, hRtimer, hRold,
          hRhist, hRdist, hRpft, hRpfb⟩ :
          ∃ R, state_home_straight t1 (pos 0) (dir 0) (now 0)
              (now 0 - s.t_old) true
              (pushHist { s with t_old := now 0, state_old := some s.state })
              = .ok R
            ∧ R.state = s.state
            ∧ R.state_old = some s.state
            ∧ R.target = s.target
            ∧ R.t_old = now 0
            ∧ R.timer_near_target = TIMER_NEAR_TARGET - (now 0 - s.t_old)
            ∧ R.robot_near_target_old = true
            ∧ R.robot_dist_hist = s.robot_dist_hist.tail ++ [s.target_dist]
            ∧ R.target_dist = get_distance (pos 0) tgt
            ∧ R.PID_frwd_turn_apple = pft2
            ∧ R.PID_frwd_base_apple = pfb2 :=
          ⟨_, hstep, rfl, rfl, rfl, rfl, rfl, rfl, rfl, rfl, rfl, rfl⟩
        have htickR : mainTick home t1 s ⟨now 0, some (snap 0)⟩ =
            .ok (speedClamp R) :=
          mainTick_ok_of_dispatch home t1 s ⟨now 0, some (snap 0)⟩ (snap 0)
            (pos 0) (dir 0) R rfl (h_rob 0 (Nat.zero_le k))
            (h_on 0 (Nat.zero_le k)) (by
              show stateDispatch home t1 (snap 0) (pos 0) (dir 0) (now 0)
                (now 0 - s.t_old) (decide (s.state_old ≠ some s.state))
                (pushHist { s with t_old := now 0, state_old := some s.state }) = .ok R
              rw [hsc0, stateDispatch_home_straight home t1 (snap 0)
                (pos 0) (dir 0) (now 0) (now 0 - s.t_old) true
                (pushHist { s with t_old := now 0, state_old := some s.state }) h_state]
              exact hstepR)
        have hrun : mainRun home t1 s (ticksOf snap now (0 + 1)) =
            .ok (speedClamp R).1 := by
          show mainRun home t1 s [⟨now 0, some (snap 0)⟩] = _
          rw [mainRun_cons_ok home t1 s (speedClamp R).1
            ⟨now 0, some (snap 0)⟩ (speedClamp R).2 [] htickR]
          rfl
        refine ⟨(speedClamp R).1, hrun, ?_, ?_, ?_, ?_, ?_, ?_, ?_, ?_,
          ?_, ?_⟩
        · show R.state = _
          rw [hRst, h_state]
        · show R.state_old = _
          rw [hRso, h_state]
        · show R.target = _
          rw [hRtgt, h_tgt]
        · exact hRtold
        · exact hRtimer
        · exact hRold
        · show R.robot_dist_hist = _
          rw [hRhist]
          rfl
        · exact hRdist
        · show pidReady R.PID_frwd_turn_apple (now 0)
          rw [hRpft]
          exact hru1
        · show pidReady R.PID_frwd_base_apple (now 0)
          rw [hRpfb]
          exact hru2
    | succ j ihj =>
        intro hk
        have hjk : j < k := Nat.lt_of_succ_lt hk
        obtain ⟨sj, hrunj, hstj, hsoj, htgtj, htoldj, htimerj, holdj,
          hhistj, hdistj, hreadyT, hreadyB⟩ := ihj hjk
        have hscj : decide (sj.state_old ≠ some sj.state) = false := by
          rw [hsoj, hstj]
          exact decide_eq_false (by simp)
        have hneq : now (j + 1) - now j ≠ 0 :=
          sub_ne_zero.mpr (ne_of_gt (h_mono j hjk))
        obtain ⟨u1, pft2, hu1, hru1⟩ := update_ok_of_ready
          sj.PID_frwd_turn_apple
          (get_angle (pos (j + 1)) (dir (j + 1)) tgt) (now (j + 1)) (now j)
          hreadyT hneq
        obtain ⟨u2, pfb2, hu2, hru2⟩ := update_ok_of_ready
          sj.PID_frwd_base_apple
          (get_distance (pos (j + 1)) tgt) (now (j + 1)) (now j)
          hreadyB hneq
        have hnof : ¬ (TIMER_NEAR_TARGET - (now j - s.t_old)
            - (now (j + 1) - sj.t_old) < 0) := by
          rw [htoldj]
          have hb := h_before (j + 1) hk
          intro hc
          linarith
        have harr2 : (pushHist { sj with t_old := now (j + 1), state_old := some sj.state }).robot_dist_hist.countP
            (fun x => decide (x > DIST_EPS)) ≠ 0 := by
          show (sj.robot_dist_hist.tail ++ [sj.target_dist]).countP
            (fun x => decide (x > DIST_EPS)) ≠ 0
          rw [hhistj, hdistj]
          exact h_arr (j + 1) (le_of_lt hk)
        have hstep := (home_straight_tick_near t1 (pos (j + 1))
            (dir (j + 1)) (now (j + 1)) (now (j + 1) - sj.t_old) false
            (pushHist { sj with t_old := now (j + 1), state_old := some sj.state })
            tgt (TIMER_NEAR_TARGET - (now j - s.t_old))
            sj.pid_frwd_base_apple_multiplier
            htgtj harr2 (h_doma (j + 1) (le_of_lt hk))
            (h_near (j + 1) (le_of_lt hk))
            (fun hc => absurd (holdj.symm.trans hc) (by simp))
            (fun _ => by
              rw [if_neg (by simp : ¬ (false = true))]
              exact htimerj)
            (fun hc => absurd (holdj.symm.trans hc) (by simp))
            (fun _ => by
              rw [if_neg (by simp : ¬ (false = true))]
              rfl)).2 hnof
          u1 u2 pft2 pfb2
          (by rw [if_neg (by simp : ¬ (false = true))]; exact hu1)
          (by rw [if_neg (by simp : ¬ (false = true))]; exact hu2)
        obtain ⟨R, hstepR, hRst, hRso, hRtgt, hRtold, hRtimer, hRold,
          hRhist, hRdist, hRpft, hRpfb⟩ :
          ∃ R, state_home_straight t1 (pos (j + 1)) (dir (j + 1))
              (now (j + 1)) (now (j + 1) - sj.t_old) false
              (pushHist { sj with t_old := now (j + 1), state_old := some sj.state }) = .ok R
            ∧ R.state = sj.state
            ∧ R.state_old = some sj.state
            ∧ R.target = sj.target
            ∧ R.t_old = now (j + 1)
            ∧ R.timer_near_target = TIMER_NEAR_TARGET - (now j - s.t_old)
                - (now (j + 1) - sj.t_old)
            ∧ R.robot_near_target_old = true
            ∧ R.robot_dist_hist = sj.robot_dist_hist.tail
                ++ [sj.target_dist]
            ∧ R.target_dist = get_distance (pos (j + 1)) tgt
            ∧ R.PID_frwd_turn_apple = pft2
            ∧ R.PID_frwd_base_apple = pfb2 :=
          ⟨_, hstep, rfl, rfl, rfl, rfl, rfl, rfl, rfl, rfl, rfl, rfl⟩
        have htickR : mainTick home t1 sj
            ⟨now (j + 1), some (snap (j + 1))⟩ = .ok (speedClamp R) :=
          mainTick_ok_of_dispatch home t1 sj
            ⟨now (j + 1), some (snap (j + 1))⟩ (snap (j + 1)) (pos (j + 1))
            (dir (j + 1)) R rfl (h_rob (j + 1) (le_of_lt hk))
            (h_on (j + 1) (le_of_lt hk)) (by
              show stateDispatch home t1 (snap (j + 1)) (pos (j + 1))
                (dir (j + 1)) (now (j + 1)) (now (j + 1) - sj.t_old)
                (decide (sj.state_old ≠ some sj.state))
                (pushHist { sj with t_old := now (j + 1), state_old := some sj.state }) = .ok R
              rw [hscj, stateDispatch_home_straight home t1 (snap (j + 1))
                (pos (j + 1)) (dir (j + 1)) (now (j + 1))
                (now (j + 1) - sj.t_old) false
                (pushHist { sj with t_old := now (j + 1), state_old := some sj.state }) hstj]
              exact hstepR)
        have hrun2 : mainRun home t1 s (ticksOf snap now (j + 1 + 1)) =
            .ok (speedClamp R).1 := by
          rw [ticksOf_succ, mainRun_append, hrunj]
          show mainRun home t1 sj [⟨now (j + 1), some (snap (j + 1))⟩] = _
          rw [mainRun_cons_ok home t1 sj (speedClamp R).1
            ⟨now (j + 1), some (snap (j + 1))⟩ (speedClamp R).2 [] htickR]
          rfl
        refine ⟨(speedClamp R).1, hrun2, ?_, ?_, ?_, ?_, ?_, ?_, ?_, ?_,
          ?_, ?_⟩
        · show R.state = _
          rw [hRst, hstj]
        · show R.state_old = _
          rw [hRso, hstj]
        · show R.target = _
          rw [hRtgt, htgtj]
        · exact hRtold
        · show R.timer_near_target = _
          rw [hRtimer, htoldj]
          ring
        · exact hRold
        · show R.robot_dist_hist = _
          rw [hRhist, hhistj, hdistj]
          rfl
        · exact hRdist
        · show pidReady R.PID_frwd_turn_apple (now (j + 1))
          rw [hRpft]
          exact hru1
        · show pidReady R.PID_frwd_base_apple (now (j + 1))
          rw [hRpfb]
          exact hru2
  refine ⟨fun j hj => ?_, ?_⟩
  · obtain ⟨sj, hrunj, hstj, -, -, -, htimerj, -⟩ := aux j hj
    exact ⟨sj, hrunj, hstj, htimerj⟩
  · cases k with
    | zero =>
        have hfire : TIMER_NEAR_TARGET - (now 0 - s.t_old) < 0 := by
          have hb := h_at
          linarith
        have hstep := (home_straight_tick_near t1 (pos 0) (dir 0) (now 0)
            (now 0 - s.t_old) true
            (pushHist { s with t_old := now 0, state_old := some s.state })
            tgt TIMER_NEAR_TARGET
            (if s.robot_near_target_old = true then (1 : ℝ) else 0.1)
            h_tgt (h_arr 0 (le_refl 0)) (h_doma 0 (le_refl 0))
            (h_near 0 (le_refl 0)) (fun _ => rfl)
            (fun _ => by rw [if_pos rfl])
            (fun hc => by
              have hc2 : s.robot_near_target_old = false := hc
              rw [hc2, if_neg (by simp : ¬ (false = true))])
            (fun hc => by
              have hc2 : s.robot_near_target_old = true := hc
              rw [if_pos rfl, hc2, if_pos rfl])).1 hfire
        obtain ⟨R, hstepR, hRst⟩ :
          ∃ R, state_home_straight t1 (pos 0) (dir 0) (now 0)
              (now 0 - s.t_old) true
              (pushHist { s with t_old := now 0, state_old := some s.state })
              = .ok R
            ∧ R.state = State.HOME_TURN := ⟨_, hstep, rfl⟩
        have htickR : mainTick home t1 s ⟨now 0, some (snap 0)⟩ =
            .ok (speedClamp R) :=
          mainTick_ok_of_dispatch home t1 s ⟨now 0, some (snap 0)⟩ (snap 0)
            (pos 0) (dir 0) R rfl (h_rob 0 (le_refl 0)) (h_on 0 (le_refl 0))
            (by
              show stateDispatch home t1 (snap 0) (pos 0) (dir 0) (now 0)
                (now 0 - s.t_old) (decide (s.state_old ≠ some s.state))
                (pushHist { s with t_old := now 0, state_old := some s.state }) = .ok R
              rw [hsc0, stateDispatch_home_straight home t1 (snap 0)
                (pos 0) (dir 0) (now 0) (now 0 - s.t_old) true
                (pushHist { s with t_old := now 0, state_old := some s.state }) h_state]
              exact hstepR)
        refine ⟨(speedClamp R).1, ?_, hRst⟩
        show mainRun home t1 s [⟨now 0, some (snap 0)⟩] = _
        rw [mainRun_cons_ok home t1 s (speedClamp R).1
          ⟨now 0, some (snap 0)⟩ (speedClamp R).2 [] htickR]
        rfl
    | succ j =>
        have hjk : j < j + 1 := Nat.lt_succ_self j
        obtain ⟨sj, hrunj, hstj, hsoj, htgtj, htoldj, htimerj, holdj,
          hhistj, hdistj, hreadyT, hreadyB⟩ := aux j hjk
        have hscj : decide (sj.state_old ≠ some sj.state) = false := by
          rw [hsoj, hstj]
          exact decide_eq_false (by simp)
        have hfire : TIMER_NEAR_TARGET - (now j - s.t_old)
            - (now (j + 1) - sj.t_old) < 0 := by
          rw [htoldj]
          have hb := h_at
          linarith
        have harr2 : (pushHist { sj with t_old := now (j + 1), state_old := some sj.state }).robot_dist_hist.countP
            (fun x => decide (x > DIST_EPS)) ≠ 0 := by
          show (sj.robot_dist_hist.tail ++ [sj.target_dist]).countP
            (fun x => decide (x > DIST_EPS)) ≠ 0
          rw [hhistj, hdistj]
          exact h_arr (j + 1) (le_refl (j + 1))
        have hstep := (home_straight_tick_near t1 (pos (j + 1))
            (dir (j + 1)) (now (j + 1)) (now (j + 1) - sj.t_old) false
            (pushHist { sj with t_old := now (j + 1), state_old := some sj.state })
            tgt (TIMER_NEAR_TARGET - (now j - s.t_old))
            sj.pid_frwd_base_apple_multiplier
            htgtj harr2 (h_doma (j + 1) (le_refl (j + 1)))
            (h_near (j + 1) (le_refl (j + 1)))
            (fun hc => absurd (holdj.symm.trans hc) (by simp))
            (fun _ => by
              rw [if_neg (by simp : ¬ (false = true))]
              exact htimerj)
            (fun hc => absurd (holdj.symm.trans hc) (by simp))
            (fun _ => by
              rw [if_neg (by simp : ¬ (false = true))]
              rfl)).1 hfire
        obtain ⟨R, hstepR, hRst⟩ :
          ∃ R, state_home_straight t1 (pos (j + 1)) (dir (j + 1))
              (now (j + 1)) (now (j + 1) - sj.t_old) false
              (pushHist { sj with t_old := now (j + 1), state_old := some sj.state }) = .ok R
            ∧ R.state = State.HOME_TURN := ⟨_, hstep, rfl⟩
        have htickR : mainTick home t1 sj
            ⟨now (j + 1), some (snap (j + 1))⟩ = .ok (speedClamp R) :=
          mainTick_ok_of_dispatch home t1 sj
            ⟨now (j + 1), some (snap (j + 1))⟩ (snap (j + 1)) (pos (j + 1))
            (dir (j + 1)) R rfl (h_rob (j + 1) (le_refl (j + 1)))
            (h_on (j + 1) (le_refl (j + 1))) (by
              show stateDispatch home t1 (snap (j + 1)) (pos (j + 1))
                (dir (j + 1)) (now (j + 1)) (now (j + 1) - sj.t_old)
                (decide (sj.state_old ≠ some sj.state))
                (pushHist { sj with t_old := now (j + 1), state_old := some sj.state }) = .ok R
              rw [hscj, stateDispatch_home_straight home t1 (snap (j + 1))
                (pos (j + 1)) (dir (j + 1)) (now (j + 1))
                (now (j + 1) - sj.t_old) false
                (pushHist { sj with t_old := now (j + 1), state_old := some sj.state }) hstj]
              exact hstepR)
        refine ⟨(speedClamp R).1, ?_, hRst⟩
        rw [ticksOf_succ, mainRun_append, hrunj]
        show mainRun home t1 sj [⟨now (j + 1), some (snap (j + 1))⟩] = _
        rw [mainRun_cons_ok home t1 sj (speedClamp R).1
          ⟨now (j + 1), some (snap (j + 1))⟩ (speedClamp R).2 [] htickR]
        rfl

/-- C6 (confirmed): during a drive-straight state the near-target
watchdog behaves as specified.  (A) In `GET_STRAIGHT`, if the robot
stays within `DIST_NEAR` of the target for every tick, the arrival
tolerance is never met, and the cumulative near time first exceeds
`TIMER_NEAR_TARGET` on tick `k`, then every earlier tick leaves the
machine in `GET_STRAIGHT` with the countdown equal to the full duration
minus the elapsed near time, and tick `k` transitions to `GET_TURN` —
no earlier and no later.  (B) The same for `HOME_STRAIGHT`
transitioning to `HOME_TURN` (with the robot outside the home zone).
(C) On a non-entry tick where the near condition does NOT hold, the
countdown is not decremented and the near flag is cleared.  (D) On a
false-to-true transition of the near condition the countdown is re-armed
to the full duration (and then decremented by that tick's loop time);
re-arming on state entry is the `j = 0` case of (A)/(B), whose countdown
restarts from the full duration regardless of the stored value. -/
theorem C6_watchdog_expiry (home : Point) (t1 : Bool) (s : MainState)
    (tgt : Point) (snap : ℕ → Snapshot) (pos : ℕ → Point) (dir : ℕ → ℝ)
    (now : ℕ → ℝ) (k : ℕ) :
    (s.state = .GET_STRAIGHT → s.state_old ≠ some .GET_STRAIGHT →
      s.target = some tgt →
      (∀ j, j ≤ k → (snap j).gameOn = true) →
      (∀ j, j ≤ k → robotFind (snap j) = some (pos j, dir j)) →
      (∀ j, j ≤ k → get_distance (pos j) tgt < DIST_NEAR) →
      (∀ j, j ≤ k → (histSeq s.robot_dist_hist s.target_dist
          (fun i => get_distance (pos i) tgt) j).countP
          (fun x => decide (x > DIST_EPS)) ≠ 0) →
      (∀ j, j < k → now j < now (j + 1)) →
      (∀ j, j < k → now j - s.t_old ≤ TIMER_NEAR_TARGET) →
      TIMER_NEAR_TARGET < now k - s.t_old →
      (∀ j, j < k →
        ∃ sj, mainRun home t1 s (ticksOf snap now (j + 1)) = .ok sj
          ∧ sj.state = .GET_STRAIGHT
          ∧ sj.timer_near_target = TIMER_NEAR_TARGET - (now j - s.t_old))
      ∧ ∃ sk, mainRun home t1 s (ticksOf snap now (k + 1)) = .ok sk
          ∧ sk.state = .GET_TURN)
    ∧ (s.state = .HOME_STRAIGHT → s.state_old ≠ some .HOME_STRAIGHT →
      s.target = some tgt →
      (∀ j, j ≤ k → (snap j).gameOn = true) →
      (∀ j, j ≤ k → robotFind (snap j) = some (pos j, dir j)) →
      (∀ j, j ≤ k → get_distance (pos j) tgt < DIST_NEAR) →
      (∀ j, j ≤ k →
        (if t1 = true then in_team_one (pos j) else in_team_two (pos j))
          = false) →
      (∀ j, j ≤ k → (histSeq s.robot_dist_hist s.target_dist
          (fun i => get_distance (pos i) tgt) j).countP
          (fun x => decide (x > DIST_EPS)) ≠ 0) →
      (∀ j, j < k → now j < now (j + 1)) →
      (∀ j, j < k → now j - s.t_old ≤ TIMER_NEAR_TARGET) →
      TIMER_NEAR_TARGET < now k - s.t_old →
      (∀ j, j < k →
        ∃ sj, mainRun home t1 s (ticksOf snap now (j + 1)) = .ok sj
          ∧ sj.state = .HOME_STRAIGHT
          ∧ sj.timer_near_target = TIMER_NEAR_TARGET - (now j - s.t_old))
      ∧ ∃ sk, mainRun home t1 s (ticksOf snap now (k + 1)) = .ok sk
          ∧ sk.state = .HOME_TURN)
    ∧ (∀ (p : Point) (d tn lt u1 u2 : ℝ) (pft2 pfb2 : PIDState),
      s.target = some tgt →
      s.robot_dist_hist.countP (fun x => decide (x > DIST_EPS)) ≠ 0 →
      ¬ (get_distance p tgt < DIST_NEAR) →
      ¬ (s.timer_near_target < 0) →
      PID.update s.PID_frwd_turn (get_angle p d tgt) tn = .ok (u1, pft2) →
      PID.update s.PID_frwd_base (get_distance p tgt) tn = .ok (u2, pfb2) →
      ∃ s2, state_get_straight p d tn lt false s = .ok s2
        ∧ s2.timer_near_target = s.timer_near_target
        ∧ s2.robot_near_target_old = false
        ∧ s2.state = s.state)
    ∧ (∀ (p : Point) (d tn lt u1 u2 : ℝ) (pft2 pfb2 : PIDState),
      s.target = some tgt →
      s.robot_dist_hist.countP (fun x => decide (x > DIST_EPS)) ≠ 0 →
      get_distance p tgt < DIST_NEAR →
      s.robot_near_target_old = false →
      ¬ (TIMER_NEAR_TARGET - lt < 0) →
      PID.update s.PID_frwd_turn (get_angle p d tgt) tn = .ok (u1, pft2) →
      PID.update s.PID_frwd_base (get_distance p tgt) tn = .ok (u2, pfb2) →
      ∃ s2, state_get_straight p d tn lt false s = .ok s2
        ∧ s2.timer_near_target = TIMER_NEAR_TARGET - lt
        ∧ s2.robot_near_target_old = true) := by
  refine ⟨?_, ?_, ?_, ?_⟩
  · intro h1 h2 h3 h4 h5 h6 h7 h8 h9 h10
    exact watchdog_run_get home t1 s tgt snap pos dir now k
      h1 h2 h3 h4 h5 h6 h7 h8 h9 h10
  · intro h1 h2 h3 h4 h5 h6 h7 h8 h9 h10 h11
    exact watchdog_run_home home t1 s tgt snap pos dir now k
      h1 h2 h3 h4 h5 h6 h7 h8 h9 h10 h11
  · intro p d tn lt u1 u2 pft2 pfb2 htgt harr hfar hnof hu1 hu2
    exact ⟨_, straight_tick_far p d tn lt s tgt htgt harr hfar hnof
      u1 u2 pft2 pfb2 hu1 hu2, rfl, rfl, rfl⟩
  · intro p d tn lt u1 u2 pft2 pfb2 htgt harr hnear hold hnof hu1 hu2
    refine ⟨_, (straight_tick_near p d tn lt false s tgt
      TIMER_NEAR_TARGET htgt harr hnear (fun _ => rfl)
      (fun hc => absurd (hold.symm.trans hc) (by simp))).2 hnof
      u1 u2 pft2 pfb2
      (by rw [if_neg (by simp : ¬ (false = true))]; exact hu1)
      (by rw [if_neg (by simp : ¬ (false = true))]; exact hu2),
      rfl, rfl⟩

/-- The starting state of the C6 witness scenario: the machine has just
entered `GET_STRAIGHT` towards the point `(96, 0)`. -/
def wStraightState : MainState :=
  { baseState with
    state := .GET_STRAIGHT
    state_old := some .GET_TURN
    target := some ⟨96, 0⟩
    target_dist := 1000 }

/-- Witness for C6: one tick of duration 4 > `TIMER_NEAR_TARGET` with
the robot 96 < `DIST_NEAR` units from the target fires the watchdog
immediately. -/
theorem C6_witness :
    (mainRun home0 true wStraightState
        (ticksOf (fun _ => snapNoGood) (fun _ => (4 : ℝ)) 1)).map
      MainState.state = Except.ok State.GET_TURN := by
  have hgt : (decide ((1000 : ℝ) > DIST_EPS)) = true :=
    decide_eq_true (by norm_num [DIST_EPS])
  obtain ⟨sk, hrun, hst⟩ :=
    ((C6_watchdog_expiry home0 true wStraightState ⟨96, 0⟩
      (fun _ => snapNoGood) (fun _ => ⟨0, 0⟩) (fun _ => 0)
      (fun _ => (4 : ℝ)) 0).1
    rfl
    (by simp : (some State.GET_TURN : Option State) ≠ some State.GET_STRAIGHT)
    rfl (fun _ _ => rfl) (fun _ _ => rfl)
    (fun _ _ => by
      rw [dist_origin_east 96 (by norm_num)]
      norm_num [DIST_NEAR])
    (fun j hj => by
      have hj0 : j = 0 := Nat.le_zero.mp hj
      subst hj0
      show (List.countP (fun x => decide (x > DIST_EPS))
        ([(1000 : ℝ), 1000, 1000].tail ++ [(1000 : ℝ)])) ≠ 0
      simp only [List.tail, List.cons_append, List.nil_append,
        List.countP_cons, List.countP_nil, hgt]
      norm_num)
    (fun j hj => absurd hj (Nat.not_lt_zero j))
    (fun j hj => absurd hj (Nat.not_lt_zero j))
    (by
      show TIMER_NEAR_TARGET < (4 : ℝ) - 0
      norm_num [TIMER_NEAR_TARGET])).2
  rw [hrun]
  show Except.ok (MainState.state sk) = Except.ok State.GET_TURN
  rw [hst]

/-- Witness for C10: the concrete `GET_APPLE` tick that goes straight to
`HOME` (no grab) still records id 1, and the next selection with id 1
excluded returns the apple with id 2. -/
theorem C10_witness :
    appleDispatched.closest_apple_id_old = apple1.id
    ∧ apple2.id ≠ apple1.id := by
  constructor
  · exact C10_consecutive_selections_differ.1 home0 true baseState
      ⟨1, some snapOneGood⟩ snapOneGood ⟨0, 0⟩ 0 apple1 appleDispatched
      (some (.run 0 0)) rfl rfl rfl rfl sel_one_good tick_apple_eval
  · exact C10_consecutive_selections_differ.2 home0 true
      { baseState with closest_apple_id_old := 1 }
      { baseState with closest_apple_id_old := 1 } apple1 apple2
      snapTwoGood ⟨0, 0⟩ rfl (.refl _) rfl sel_two_excl

end
